import Mathlib

/-!
Verification of the SQL repair and validation pipeline of the ai-chatbot
repository.

The pipeline is a chain of text-transformation passes over SQL strings
(backend/src/utils/sqlQueryFixer.ts, backend/src/services/ai/derivedTableFixer.ts,
the helper module with fixMalformedJoins / fixTopWithTiesAndOffset /
cleanSQLQuery / validateAndCleanQuery, and dynamicSqlExecutor.ts).  Strings
are embedded as lists of ASCII character codes (`List Nat`, converted from
`String` at the boundary); every JavaScript regular-expression pass is
embedded as an explicit character-level scanner that realizes the
leftmost-match / backtracking semantics of the concrete pattern it
translates, and `String.prototype.replace` with a /g flag is embedded
through a generic scan-and-replace driver.
-/

namespace AiChatbot

/-- A string as its list of character codes. -/
def toCodes (s : String) : List Nat := s.data.map Char.toNat

/-- Back from character codes to a string. -/
def ofCodes (l : List Nat) : String := ⟨l.map Char.ofNat⟩

/-- Lower-case fold of an ASCII character code, for the /i regex flag. -/
def lowCode (n : Nat) : Nat := if 65 ≤ n ∧ n ≤ 90 then n + 32 else n

/-- Case-insensitive character comparison (ASCII folding). -/
def ciEq (a b : Nat) : Bool := lowCode a == lowCode b

/-- JS regex `\w`: ASCII letter, digit or underscore. -/
def isWordCode (n : Nat) : Bool :=
  decide ((48 ≤ n ∧ n ≤ 57) ∨ (65 ≤ n ∧ n ≤ 90) ∨ (97 ≤ n ∧ n ≤ 122) ∨ n = 95)

/-- JS regex `\s` (the ASCII part: space, tab, newline, carriage return,
vertical tab, form feed). -/
def isSpaceCode (n : Nat) : Bool :=
  decide (n = 32 ∨ n = 9 ∨ n = 10 ∨ n = 13 ∨ n = 11 ∨ n = 12)

/-- JS regex `\d`. -/
def isDigitCode (n : Nat) : Bool := decide (48 ≤ n ∧ n ≤ 57)

/-- Whether an optional character is a word character (`none` stands for the
edge of the string). -/
def wordy : Option Nat → Bool
  | none => false
  | some c => isWordCode c

/-- Case-insensitive literal match: consume `pat` from the front of the
subject, returning the rest. -/
def ciDrop : List Nat → List Nat → Option (List Nat)
  | [], s => some s
  | _ :: _, [] => none
  | p :: ps, c :: cs => if ciEq p c then ciDrop ps cs else none

/-- Case-sensitive literal match: consume `pat` from the front of the
subject, returning the rest. -/
def csDrop : List Nat → List Nat → Option (List Nat)
  | [], s => some s
  | _ :: _, [] => none
  | p :: ps, c :: cs => if p = c then csDrop ps cs else none

/-- Greedy run of characters satisfying `p`, of length at least one:
`(tokens, rest)`. -/
def many1 (p : Nat → Bool) (s : List Nat) : Option (List Nat × List Nat) :=
  match s.span p with
  | ([], _) => none
  | (tk, rest) => some (tk, rest)

/-- Greedy `\s+`. -/
def spaces1 (s : List Nat) : Option (List Nat × List Nat) := many1 isSpaceCode s

/-- Greedy `\s*`. -/
def spaces0 (s : List Nat) : List Nat × List Nat := s.span isSpaceCode

/-- Greedy `\d+`. -/
def digits1 (s : List Nat) : Option (List Nat × List Nat) := many1 isDigitCode s

/-- Greedy `\w+`. -/
def word1 (s : List Nat) : Option (List Nat × List Nat) := many1 isWordCode s

/-- Whether `pat` is a (case-sensitive) prefix of `s`. -/
def startsWithCS (pat s : List Nat) : Bool := (csDrop pat s).isSome

/-- Whether `pat` is a (case-insensitive) prefix of `s`. -/
def startsWithCI (pat s : List Nat) : Bool := (ciDrop pat s).isSome

/-- JS `String.prototype.includes`: case-sensitive substring test. -/
def includesCS (pat : List Nat) : List Nat → Bool
  | [] => pat.isEmpty
  | c :: cs => startsWithCS pat (c :: cs) || includesCS pat cs

/-- Case-insensitive substring test. -/
def includesCI (pat : List Nat) : List Nat → Bool
  | [] => pat.isEmpty
  | c :: cs => startsWithCI pat (c :: cs) || includesCI pat cs

/-- Index of the first (case-sensitive) occurrence of `pat`, if any. -/
def indexOfCS (pat : List Nat) : List Nat → Option Nat
  | [] => if pat.isEmpty then some 0 else none
  | c :: cs =>
    if startsWithCS pat (c :: cs) then some 0
    else (indexOfCS pat cs).map (· + 1)

/-- Index of the first (case-insensitive) occurrence of `pat`, if any. -/
def indexOfCI (pat : List Nat) : List Nat → Option Nat
  | [] => if pat.isEmpty then some 0 else none
  | c :: cs =>
    if startsWithCI pat (c :: cs) then some 0
    else (indexOfCI pat cs).map (· + 1)

/-- Index of the last (case-sensitive) occurrence of `pat`, if any
(JS `lastIndexOf`). -/
def lastIndexOfCS (pat s : List Nat) : Option Nat :=
  match s with
  | [] => if pat.isEmpty then some 0 else none
  | _ :: cs =>
    match lastIndexOfCS pat cs with
    | some i => some (i + 1)
    | none => if startsWithCS pat s then some 0 else none

/-- JS `String.prototype.replace` with a plain-string pattern: replace the
first occurrence only (the whole string is returned unchanged when the
pattern does not occur; an empty pattern matches at the front). -/
def replaceFirstStr : List Nat → List Nat → List Nat → List Nat
  | [], pat, r => if pat.isEmpty then r else []
  | c :: cs, pat, r =>
    if startsWithCS pat (c :: cs) then r ++ (c :: cs).drop pat.length
    else c :: replaceFirstStr cs pat r

/-- JS `String.prototype.trim`. -/
def trimStr (s : List Nat) : List Nat :=
  ((s.dropWhile isSpaceCode).reverse.dropWhile isSpaceCode).reverse

/-- A matcher embeds one regular expression: given the character just before
the current position (`none` at the start of the string) and the rest of the
string, it either fails or returns the matched text, a payload (for a
replacement pass: the replacement text) and the remainder. -/
abbrev Matcher (γ : Type) := Option Nat → List Nat → Option (List Nat × γ × List Nat)

/-- The character seen as "previous" after consuming `u` (falling back to the
previous context when `u` is empty). -/
def lastOpt (prev : Option Nat) : List Nat → Option Nat
  | [] => prev
  | c :: cs => lastOpt (some c) cs

/-- Scan-and-replace driver for a /g regex replace: at every position try the
matcher; on a match emit its payload and continue after the matched text,
otherwise keep the character.  `fuel` bounds the recursion (any value at
least the length of the subject is exact). -/
def replAllGo (m : Matcher (List Nat)) : Nat → Option Nat → List Nat → List Nat
  | 0, _, s => s
  | _ + 1, _, [] => []
  | fuel + 1, prev, c :: cs =>
    match m prev (c :: cs) with
    | some (mt, rp, rest) => rp ++ replAllGo m fuel (lastOpt prev mt) rest
    | none => c :: replAllGo m fuel (some c) cs

/-- Global (/g) regex replace. -/
def replAll (m : Matcher (List Nat)) (s : List Nat) : List Nat :=
  replAllGo m (s.length + 1) none s

/-- Scan-and-replace driver for a non-global regex replace: only the first
match is replaced. -/
def replFirstGo (m : Matcher (List Nat)) : Nat → Option Nat → List Nat → List Nat
  | 0, _, s => s
  | _ + 1, _, [] => []
  | fuel + 1, prev, c :: cs =>
    match m prev (c :: cs) with
    | some (_, rp, rest) => rp ++ rest
    | none => c :: replFirstGo m fuel (some c) cs

/-- Non-global regex replace (first match only). -/
def replFirst (m : Matcher (List Nat)) (s : List Nat) : List Nat :=
  replFirstGo m (s.length + 1) none s

/-- Regex `test`: whether the matcher succeeds at any position. -/
def existsMGo (m : Matcher (List Nat)) : Nat → Option Nat → List Nat → Bool
  | 0, _, _ => false
  | _ + 1, _, [] => false
  | fuel + 1, prev, c :: cs =>
    (m prev (c :: cs)).isSome || existsMGo m fuel (some c) cs

/-- Regex `test` over a whole subject. -/
def existsM (m : Matcher (List Nat)) (s : List Nat) : Bool :=
  existsMGo m (s.length + 1) none s

/-- Collect all matches of a regex together with their start indices, as the
JS `exec` loop over a /g regex does (scanning resumes after each match). -/
def collectGo (m : Matcher γ) : Nat → Option Nat → Nat → List Nat → List (Nat × List Nat × γ)
  | 0, _, _, _ => []
  | _ + 1, _, _, [] => []
  | fuel + 1, prev, idx, c :: cs =>
    match m prev (c :: cs) with
    | some (mt, g, rest) =>
      (idx, mt, g) :: collectGo m fuel (lastOpt prev mt) (idx + mt.length) rest
    | none => collectGo m fuel (some c) (idx + 1) cs

/-- All matches of a regex, with start indices and payloads. -/
def collectAll (m : Matcher γ) (s : List Nat) : List (Nat × List Nat × γ) :=
  collectGo m (s.length + 1) none 0 s

/-- No position of the subject matches (the induction companion of the
replace and test drivers). -/
def noMatchAll (m : Matcher γ) : Option Nat → List Nat → Bool
  | _, [] => true
  | prev, c :: cs => (m prev (c :: cs)).isNone && noMatchAll m (some c) cs

/-- No position strictly inside the prefix `u` of `u ++ tail` matches. -/
def noMatchPre (m : Matcher γ) : Option Nat → List Nat → List Nat → Bool
  | _, [], _ => true
  | prev, c :: cs, tail => (m prev (c :: cs ++ tail)).isNone && noMatchPre m (some c) cs tail

theorem replAllGo_of_noMatchAll (m : Matcher (List Nat)) :
    ∀ (s : List Nat) (fuel : Nat) (prev : Option Nat),
      noMatchAll m prev s = true → replAllGo m fuel prev s = s := by
  intro s
  induction s with
  | nil => intro fuel prev _; cases fuel <;> rfl
  | cons c cs ih =>
    intro fuel prev h
    cases fuel with
    | zero => rfl
    | succ f =>
      simp only [noMatchAll, Bool.and_eq_true, Option.isNone_iff_eq_none] at h
      simp only [replAllGo, h.1]
      exact congrArg (c :: ·) (ih f (some c) h.2)

theorem replFirstGo_of_noMatchAll (m : Matcher (List Nat)) :
    ∀ (s : List Nat) (fuel : Nat) (prev : Option Nat),
      noMatchAll m prev s = true → replFirstGo m fuel prev s = s := by
  intro s
  induction s with
  | nil => intro fuel prev _; cases fuel <;> rfl
  | cons c cs ih =>
    intro fuel prev h
    cases fuel with
    | zero => rfl
    | succ f =>
      simp only [noMatchAll, Bool.and_eq_true, Option.isNone_iff_eq_none] at h
      simp only [replFirstGo, h.1]
      exact congrArg (c :: ·) (ih f (some c) h.2)

theorem replAllGo_cons_none (m : Matcher (List Nat)) (f : Nat) (prev : Option Nat)
    (c : Nat) (cs : List Nat) (h : m prev (c :: cs) = none) :
    replAllGo m (f + 1) prev (c :: cs) = c :: replAllGo m f (some c) cs := by
  rw [replAllGo, h]

theorem replFirstGo_cons_none (m : Matcher (List Nat)) (f : Nat) (prev : Option Nat)
    (c : Nat) (cs : List Nat) (h : m prev (c :: cs) = none) :
    replFirstGo m (f + 1) prev (c :: cs) = c :: replFirstGo m f (some c) cs := by
  rw [replFirstGo, h]

theorem replAllGo_append (m : Matcher (List Nat)) :
    ∀ (u tail : List Nat) (f : Nat) (prev : Option Nat),
      noMatchPre m prev u tail = true →
      replAllGo m (u.length + f) prev (u ++ tail) =
        u ++ replAllGo m f (lastOpt prev u) tail := by
  intro u
  induction u with
  | nil => intro tail f prev _; simp [lastOpt]
  | cons c cs ih =>
    intro tail f prev h
    simp only [noMatchPre, Bool.and_eq_true, Option.isNone_iff_eq_none] at h
    have hstep : (c :: cs).length + f = (cs.length + f) + 1 := by
      simp [List.length_cons]; omega
    rw [hstep, List.cons_append,
        replAllGo_cons_none m (cs.length + f) prev c (cs ++ tail) h.1,
        ih tail f (some c) h.2]
    rfl

theorem replFirstGo_append (m : Matcher (List Nat)) :
    ∀ (u tail : List Nat) (f : Nat) (prev : Option Nat),
      noMatchPre m prev u tail = true →
      replFirstGo m (u.length + f) prev (u ++ tail) =
        u ++ replFirstGo m f (lastOpt prev u) tail := by
  intro u
  induction u with
  | nil => intro tail f prev _; simp [lastOpt]
  | cons c cs ih =>
    intro tail f prev h
    simp only [noMatchPre, Bool.and_eq_true, Option.isNone_iff_eq_none] at h
    have hstep : (c :: cs).length + f = (cs.length + f) + 1 := by
      simp [List.length_cons]; omega
    rw [hstep, List.cons_append,
        replFirstGo_cons_none m (cs.length + f) prev c (cs ++ tail) h.1,
        ih tail f (some c) h.2]
    rfl

/-! ### Balanced-parenthesis extraction (derivedTableFixer.ts, extractBalancedSubstring)

The source walks the string with a depth counter that starts at 1 (the
opening parenthesis has already been consumed by the caller); `(` (code 40)
increments, `)` (code 41) decrements, and when the depth reaches 0 the prefix
before that `)` is returned.  When the scan runs off the end, the whole
remaining string is returned. -/

def extractBalancedGo : Nat → List Nat → List Nat
  | _, [] => []
  | depth, c :: cs =>
    if c = 40 then c :: extractBalancedGo (depth + 1) cs
    else if c = 41 then
      if depth = 1 then []
      else c :: extractBalancedGo (depth - 1) cs
    else c :: extractBalancedGo depth cs

def extractBalancedSubstring (s : String) : String :=
  ofCodes (extractBalancedGo 1 (toCodes s))

/-- Scanning `s` at nesting level `depth`, no `)` ever brings the depth down
to zero (so the matching close of the already-consumed `(` is not inside
`s`). -/
def keepsOpen : Nat → List Nat → Bool
  | _, [] => true
  | depth, c :: cs =>
    if c = 40 then keepsOpen (depth + 1) cs
    else if c = 41 then decide (depth ≠ 1) && keepsOpen (depth - 1) cs
    else keepsOpen depth cs

/-- The nesting level after scanning `s` from level `d`. -/
def depthAfter : Nat → List Nat → Nat
  | d, [] => d
  | d, c :: cs =>
    if c = 40 then depthAfter (d + 1) cs
    else if c = 41 then depthAfter (d - 1) cs
    else depthAfter d cs

theorem extractBalancedGo_stops :
    ∀ (a : List Nat) (d : Nat) (b : List Nat),
      keepsOpen d a = true → depthAfter d a = 1 →
      extractBalancedGo d (a ++ 41 :: b) = a := by
  intro a
  induction a with
  | nil =>
    intro d b _ hd
    simp only [depthAfter] at hd
    subst hd
    simp [extractBalancedGo]
  | cons c cs ih =>
    intro d b hk hd
    by_cases hop : c = 40
    · subst hop
      simp [keepsOpen] at hk
      simp [depthAfter] at hd
      simp [extractBalancedGo, ih (d + 1) b hk hd]
    · by_cases hcl : c = 41
      · subst hcl
        simp [keepsOpen] at hk
        simp [depthAfter] at hd
        simp [extractBalancedGo, hk.1, ih (d - 1) b hk.2 hd]
      · simp [keepsOpen, hop, hcl] at hk
        simp [depthAfter, hop, hcl] at hd
        simp [extractBalancedGo, hop, hcl, ih d b hk hd]

theorem extractBalancedGo_unbalanced :
    ∀ (s : List Nat) (d : Nat), keepsOpen d s = true →
      extractBalancedGo d s = s := by
  intro s
  induction s with
  | nil => intro d _; rfl
  | cons c cs ih =>
    intro d hk
    by_cases hop : c = 40
    · subst hop
      simp [keepsOpen] at hk
      simp [extractBalancedGo, ih (d + 1) hk]
    · by_cases hcl : c = 41
      · subst hcl
        simp [keepsOpen] at hk
        simp [extractBalancedGo, hk.1, ih (d - 1) hk.2]
      · simp [keepsOpen, hop, hcl] at hk
        simp [extractBalancedGo, hop, hcl, ih d hk]

/-- C5: extractBalancedSubstring, given the text that follows an opening
parenthesis (so the scan starts at depth 1), returns the substring up to but
not including the matching closing parenthesis, through arbitrary nesting of
parentheses (`keepsOpen 1 a` says no close for the already-consumed open lies
inside `a`, `depthAfter 1 a = 1` says the next `)` — code 41 — is that
matching close); when no matching closing parenthesis exists in the input,
the entire remaining string is returned instead of failing. -/
theorem C5_extractBalancedSubstring_contract :
    (∀ a b : List Nat, keepsOpen 1 a = true → depthAfter 1 a = 1 →
        extractBalancedGo 1 (a ++ 41 :: b) = a) ∧
    (∀ s : List Nat, keepsOpen 1 s = true →
        extractBalancedGo 1 s = s) :=
  ⟨fun a b hk hd => extractBalancedGo_stops a 1 b hk hd,
    fun s hk => extractBalancedGo_unbalanced s 1 hk⟩

/-- Witness for C5 at concrete inputs: a nested subquery text whose matching
close is followed by an alias, and an unbalanced input; also evaluates the
String-level wrapper on the same inputs. -/
theorem C5_extractBalancedSubstring_contract_witness :
    extractBalancedGo 1 (toCodes "SELECT (a(b)) FROM (t)" ++ 41 :: toCodes " AS x") =
      toCodes "SELECT (a(b)) FROM (t)" ∧
    extractBalancedGo 1 (toCodes "SELECT ((a)") = toCodes "SELECT ((a)" ∧
    extractBalancedSubstring "SELECT (a(b)) FROM (t)) AS x" = "SELECT (a(b)) FROM (t)" :=
  ⟨C5_extractBalancedSubstring_contract.1 (toCodes "SELECT (a(b)) FROM (t)")
      (toCodes " AS x") (by decide) (by decide),
    C5_extractBalancedSubstring_contract.2 (toCodes "SELECT ((a)") (by decide),
    by decide⟩

/-! ### TOP with OFFSET conflicts (helper module, fixTopWithTiesAndOffset)

The source tests `/SELECT\s+TOP\s+\d+(?:\s+PERCENT)?(?:\s+WITH\s+TIES)?\s+.*?\bOFFSET\b/is`
and, when it matches, globally replaces every match of
`/SELECT\s+TOP\s+\d+(?:\s+PERCENT)?(?:\s+WITH\s+TIES)?\s+/ig` by
``SELECT /* ${match.trim()} converted */ `` (the TOP clause is kept inside a
block comment, not deleted). -/

/-- Case-insensitive literal piece: returns the consumed original characters
and the rest. -/
def ciTake (pat s : List Nat) : Option (List Nat × List Nat) :=
  match ciDrop pat s with
  | some rest => some (s.take pat.length, rest)
  | none => none

/-- Case-sensitive literal piece. -/
def csTake (pat s : List Nat) : Option (List Nat × List Nat) :=
  match csDrop pat s with
  | some rest => some (s.take pat.length, rest)
  | none => none

/-- The `(?:\s+PERCENT)?(?:\s+WITH\s+TIES)?\s+` tail of the TOP pattern, with
the backtracking priority of the two greedy optional groups: both, first
only, second only, neither — each followed by the mandatory `\s+`. -/
def topTailOpt (s : List Nat) : Option (List Nat × List Nat) :=
  (do
    let (w1, r1) ← spaces1 s
    let (p, r2) ← ciTake (toCodes "PERCENT") r1
    let (w2, r3) ← spaces1 r2
    let (wi, r4) ← ciTake (toCodes "WITH") r3
    let (w3, r5) ← spaces1 r4
    let (ti, r6) ← ciTake (toCodes "TIES") r5
    let (w4, r7) ← spaces1 r6
    some (w1 ++ p ++ w2 ++ wi ++ w3 ++ ti ++ w4, r7)) <|>
  (do
    let (w1, r1) ← spaces1 s
    let (p, r2) ← ciTake (toCodes "PERCENT") r1
    let (w2, r3) ← spaces1 r2
    some (w1 ++ p ++ w2, r3)) <|>
  (do
    let (w1, r1) ← spaces1 s
    let (wi, r2) ← ciTake (toCodes "WITH") r1
    let (w2, r3) ← spaces1 r2
    let (ti, r4) ← ciTake (toCodes "TIES") r3
    let (w3, r5) ← spaces1 r4
    some (w1 ++ wi ++ w2 ++ ti ++ w3, r5)) <|>
  (do
    let (w, r) ← spaces1 s
    some (w, r))

/-- One match attempt of
`SELECT\s+TOP\s+\d+(?:\s+PERCENT)?(?:\s+WITH\s+TIES)?\s+` (case-insensitive;
the pattern starts with the literal, no word boundary). -/
def topMatchAt (s : List Nat) : Option (List Nat × List Nat) := do
  let (sel, r1) ← ciTake (toCodes "SELECT") s
  let (w1, r2) ← spaces1 r1
  let (top, r3) ← ciTake (toCodes "TOP") r2
  let (w2, r4) ← spaces1 r3
  let (ds, r5) ← digits1 r4
  let (tl, r6) ← topTailOpt r5
  some (sel ++ w1 ++ top ++ w2 ++ ds ++ tl, r6)

/-- Whether `\bOFFSET\b` occurs at or after the current position (`prev` is
the character before that position). -/
def offsetWordFrom : Option Nat → List Nat → Bool
  | _, [] => false
  | prev, c :: cs =>
    (!wordy prev &&
      (match ciDrop (toCodes "OFFSET") (c :: cs) with
        | some rest => !wordy rest.head?
        | none => false)) ||
    offsetWordFrom (some c) cs

/-- The test regex
`/SELECT\s+TOP\s+\d+(?:\s+PERCENT)?(?:\s+WITH\s+TIES)?\s+.*?\bOFFSET\b/is`:
a TOP clause match somewhere, with a word-bounded OFFSET after it (the /s
flag lets `.*?` cross newlines, so this is a plain reachability search). -/
def topOffsetTestGo : Option Nat → List Nat → Bool
  | _, [] => false
  | prev, c :: cs =>
    (match topMatchAt (c :: cs) with
      | some (mt, rest) => offsetWordFrom (lastOpt prev mt) rest
      | none => false) ||
    topOffsetTestGo (some c) cs

def topOffsetTest (s : List Nat) : Bool := topOffsetTestGo none s

/-- The global replacement pass: each TOP clause match becomes
``SELECT /* <match, trimmed> converted */ ``. -/
def topConvertM : Matcher (List Nat) := fun _ s =>
  match topMatchAt s with
  | some (mt, rest) =>
    some (mt, toCodes "SELECT /* " ++ trimStr mt ++ toCodes " converted */ ", rest)
  | none => none

def fixTopWithTiesAndOffset (query : String) : String :=
  if topOffsetTest (toCodes query) then ofCodes (replAll topConvertM (toCodes query))
  else query

/-- The TOP/OFFSET conflict scenario input of the specification. -/
def topOffsetQuery : String :=
  "SELECT TOP 10 * FROM T ORDER BY X OFFSET 5 ROWS FETCH NEXT 10 ROWS ONLY"

/-- C3, counterexample: fixTopWithTiesAndOffset is not idempotent.  On the
canonical TOP/OFFSET query its output still contains a `SELECT TOP 10 `
(inside the conversion comment) followed by OFFSET, so a second application
wraps the comment again. -/
theorem C3_idempotence_counterexample :
    fixTopWithTiesAndOffset (fixTopWithTiesAndOffset topOffsetQuery) ≠
      fixTopWithTiesAndOffset topOffsetQuery := by decide

/-- C3 (amended): each fixer is a no-op, hence idempotent, on inputs its
trigger pattern does not match; in particular fixTopWithTiesAndOffset is the
identity whenever its TOP-with-OFFSET test fails, but it is not idempotent in
general (see the counterexample). -/
theorem C3_fixer_idempotent_when_pattern_absent (q : String)
    (h : topOffsetTest (toCodes q) = false) :
    fixTopWithTiesAndOffset (fixTopWithTiesAndOffset q) = fixTopWithTiesAndOffset q := by
  have h1 : fixTopWithTiesAndOffset q = q := by
    simp [fixTopWithTiesAndOffset, h]
  rw [h1, h1]

/-- Witness for the amended C3 at a concrete TOP-without-OFFSET query. -/
theorem C3_fixer_idempotent_when_pattern_absent_witness :
    topOffsetTest (toCodes "SELECT TOP 5 CustomerID FROM Orders") = false ∧
    fixTopWithTiesAndOffset (fixTopWithTiesAndOffset "SELECT TOP 5 CustomerID FROM Orders") =
      fixTopWithTiesAndOffset "SELECT TOP 5 CustomerID FROM Orders" :=
  ⟨by decide, C3_fixer_idempotent_when_pattern_absent _ (by decide)⟩

/-! ### SQL Server syntax fixer (sqlServerSyntaxFixer module, fixSQLServerSyntaxIssues)

Five sequential rewrites: (1) a commented `/* SELECT TOP n converted */`
becomes the literal `TOP 1`; (2) a parenthesized `(SELECT ...)` subquery with
`ORDER BY` but no `TOP n`/`OFFSET`/`FOR XML` gets `TOP 100` injected after
its first SELECT; (3) a subquery with both TOP and OFFSET...FETCH loses its
`SELECT [DISTINCT] TOP n` in favor of `SELECT DISTINCT`; (4) a
`SELECT DISTINCT` context with ORDER BY and no OFFSET gets `TOP 100`;
(5) `OFFSET n ROWS FETCH {NEXT|FIRST} m ROWS ONLY` is normalized. -/

/-- The window test `sql.substring(i+1, i+8).match(/\s*SELECT/i)` of
findSubqueries: the unanchored regex succeeds on the 7-character window after
a `(` iff SELECT starts at window offset 0 or 1 (the 6-character literal fits
nowhere else, and `\s*` may be empty at either offset, so the character at
offset 0 is arbitrary in the second case). -/
def selectWindow (cs : List Nat) : Bool :=
  let w := cs.take 7
  startsWithCI (toCodes "SELECT") w || startsWithCI (toCodes "SELECT") (w.drop 1)

/-- The findSubqueries scan: a character loop tracking parenthesis depth (a
JS number, so an `Int` here: a stray `)` makes it negative), the start flag
and the currently collected span (reversed).  Only outermost `(SELECT`-opened
spans are collected. -/
def findSubqueriesGo : List Nat → Int → Bool → List Nat → List (List Nat) → List (List Nat)
  | [], _, _, _, acc => acc
  | c :: cs, depth, inSub, cur, acc =>
    if c = 40 then
      if selectWindow cs then
        if depth = 0 then
          findSubqueriesGo cs (depth + 1) true [c] acc
        else
          findSubqueriesGo cs (depth + 1) inSub (if inSub then c :: cur else cur) acc
      else
        findSubqueriesGo cs (depth + 1) inSub (if inSub then c :: cur else cur) acc
    else if c = 41 then
      if depth - 1 = 0 && inSub then
        findSubqueriesGo cs (depth - 1) false [] (acc ++ [(c :: cur).reverse])
      else
        findSubqueriesGo cs (depth - 1) inSub (if inSub then c :: cur else cur) acc
    else
      findSubqueriesGo cs depth inSub (if inSub then c :: cur else cur) acc

def findSubqueries (sql : List Nat) : List (List Nat) :=
  findSubqueriesGo sql 0 false [] []

/-- Search for `\bTOP\s+\d+` (case-insensitive). -/
def topNumFrom : Option Nat → List Nat → Bool
  | _, [] => false
  | prev, c :: cs =>
    (!wordy prev &&
      (match (do
          let r1 ← ciDrop (toCodes "TOP") (c :: cs)
          let (_, r2) ← spaces1 r1
          let (_, r3) ← digits1 r2
          some r3) with
        | some _ => true
        | none => false)) ||
    topNumFrom (some c) cs

def hasTopNum (s : List Nat) : Bool := topNumFrom none s

/-- Search for `\bOFFSET\b` (case-insensitive). -/
def hasOffsetWord (s : List Nat) : Bool := offsetWordFrom none s

/-- Search for `\bFOR\s+XML\b` (case-insensitive). -/
def forXmlFrom : Option Nat → List Nat → Bool
  | _, [] => false
  | prev, c :: cs =>
    (!wordy prev &&
      (match (do
          let r1 ← ciDrop (toCodes "FOR") (c :: cs)
          let (_, r2) ← spaces1 r1
          let r3 ← ciDrop (toCodes "XML") r2
          some r3) with
        | some r3 => !wordy r3.head?
        | none => false)) ||
    forXmlFrom (some c) cs

def hasForXml (s : List Nat) : Bool := forXmlFrom none s

/-- The Fix-2 guard on one subquery: a case-sensitive `includes('ORDER BY')`
and three negative regex tests. -/
def subqueryNeedsTop (sub : List Nat) : Bool :=
  includesCS (toCodes "ORDER BY") sub && !hasTopNum sub && !hasOffsetWord sub &&
    !hasForXml sub

/-- The Fix-2 rewrite regex `\bSELECT\b(?!\s+TOP)` (case-insensitive, first
match only), replaced by `SELECT TOP 100`. -/
def selectNotTopM : Matcher (List Nat) := fun prev s =>
  if wordy prev then none
  else
    match ciTake (toCodes "SELECT") s with
    | some (mt, rest) =>
      if wordy rest.head? then none
      else
        match (do
            let (_, r1) ← spaces1 rest
            ciDrop (toCodes "TOP") r1) with
        | some _ => none
        | none => some (mt, toCodes "SELECT TOP 100", rest)
    | none => none

def injectTop100 (sub : List Nat) : List Nat := replFirst selectNotTopM sub

/-- Fix 2: inject TOP 100 into ORDER-BY subqueries lacking TOP, OFFSET and
FOR XML (the subquery list is computed once; each rewritten subquery replaces
the first occurrence of its text in the accumulating query). -/
def sqlFix2 (q : List Nat) : List Nat :=
  (findSubqueries q).foldl
    (fun acc sub =>
      if subqueryNeedsTop sub then replaceFirstStr acc sub (injectTop100 sub) else acc) q

/-- One match of `\bSELECT\s+(?:DISTINCT\s+)?TOP\s+\d+` (case-insensitive,
greedy optional DISTINCT first). -/
def selTopAt (s : List Nat) : Option (List Nat × List Nat) :=
  (do
    let (sel, r1) ← ciTake (toCodes "SELECT") s
    let (w1, r2) ← spaces1 r1
    let (d, r3) ← ciTake (toCodes "DISTINCT") r2
    let (w2, r4) ← spaces1 r3
    let (t, r5) ← ciTake (toCodes "TOP") r4
    let (w3, r6) ← spaces1 r5
    let (ds, r7) ← digits1 r6
    some (sel ++ w1 ++ d ++ w2 ++ t ++ w3 ++ ds, r7)) <|>
  (do
    let (sel, r1) ← ciTake (toCodes "SELECT") s
    let (w1, r2) ← spaces1 r1
    let (t, r3) ← ciTake (toCodes "TOP") r2
    let (w2, r4) ← spaces1 r3
    let (ds, r5) ← digits1 r4
    some (sel ++ w1 ++ t ++ w2 ++ ds, r5))

/-- The Fix-3 rewrite: `SELECT [DISTINCT] TOP n` becomes `SELECT DISTINCT`. -/
def selTopM : Matcher (List Nat) := fun prev s =>
  if wordy prev then none
  else
    match selTopAt s with
    | some (mt, rest) => some (mt, toCodes "SELECT DISTINCT", rest)
    | none => none

/-- Search for `\bOFFSET\s+\d+\s+ROWS\s+FETCH` (case-insensitive). -/
def offsetFetchFrom : Option Nat → List Nat → Bool
  | _, [] => false
  | prev, c :: cs =>
    (!wordy prev &&
      (match (do
          let r1 ← ciDrop (toCodes "OFFSET") (c :: cs)
          let (_, r2) ← spaces1 r1
          let (_, r3) ← digits1 r2
          let (_, r4) ← spaces1 r3
          let r5 ← ciDrop (toCodes "ROWS") r4
          let (_, r6) ← spaces1 r5
          ciDrop (toCodes "FETCH") r6) with
        | some _ => true
        | none => false)) ||
    offsetFetchFrom (some c) cs

def hasOffsetFetch (s : List Nat) : Bool := offsetFetchFrom none s

/-- Fix 3: in subqueries with both TOP and OFFSET...FETCH, drop the TOP
clause (the replacement inserts DISTINCT even when none was present). -/
def sqlFix3 (q : List Nat) : List Nat :=
  (findSubqueries q).foldl
    (fun acc sub =>
      if existsM selTopM sub && hasOffsetFetch sub then
        replaceFirstStr acc sub (replFirst selTopM sub)
      else acc) q

/-- `ORDER\s+BY` at the head of the subject: the rest after BY. -/
def orderByAt (s : List Nat) : Option (List Nat) := do
  let r1 ← ciDrop (toCodes "ORDER") s
  let (_, r2) ← spaces1 r1
  ciDrop (toCodes "BY") r2

/-- Search for `\bORDER\s+BY\b` (case-insensitive). -/
def orderByWordFrom : Option Nat → List Nat → Bool
  | _, [] => false
  | prev, c :: cs =>
    (!wordy prev &&
      (match orderByAt (c :: cs) with
        | some r => !wordy r.head?
        | none => false)) ||
    orderByWordFrom (some c) cs

def hasOrderByWord (s : List Nat) : Bool := orderByWordFrom none s

/-- Within the SELECT-free stretch, the end offset (just past BY) of the last
`ORDER\s+BY` whose start lies within the first `bound + 1` positions of `s`;
the greedy `(?:(?!SELECT).)*` prefers the last occurrence. -/
def lastOrderByRest : Nat → Nat → List Nat → Option Nat → Option Nat
  | bound, idx, s, best =>
    let best' :=
      match orderByAt s with
      | some rest => some (idx + (s.length - rest.length))
      | none => best
    match bound, s with
    | 0, _ => best'
    | _, [] => best'
    | b + 1, _ :: cs => lastOrderByRest b (idx + 1) cs best'

/-- The `[^;)]*?(?:;|\)|$)` tail: length consumed after ORDER BY, up to and
including the first `;` (code 59) or `)` (code 41), or the whole remainder
when neither occurs. -/
def untilTermLen : List Nat → Nat
  | [] => 0
  | c :: cs => if c = 59 ∨ c = 41 then 1 else 1 + untilTermLen cs

/-- The findOrderByContexts exec loop over
`/SELECT(?:(?!SELECT).)*ORDER\s+BY[^;)]*?(?:;|\)|$)/gis`: from each SELECT
occurrence, the star may consume up to (not past) the next SELECT occurrence;
the last ORDER BY in that stretch is taken; scanning resumes after the
match, or one character past a SELECT that finds no ORDER BY. -/
def findOrderByContextsGo (s : List Nat) : Nat → Nat → List (List Nat)
  | 0, _ => []
  | fuel + 1, pos =>
    match indexOfCI (toCodes "SELECT") (s.drop pos) with
    | none => []
    | some off =>
      let p := pos + off
      let afterSel := p + 6
      let bound :=
        match indexOfCI (toCodes "SELECT") (s.drop afterSel) with
        | none => s.length - afterSel
        | some off2 => off2
      match lastOrderByRest bound 0 (s.drop afterSel) none with
      | none => findOrderByContextsGo s fuel (p + 1)
      | some endOff =>
        let tail := untilTermLen (s.drop (afterSel + endOff))
        let e := afterSel + endOff + tail
        ((s.drop p).take (e - p)) :: findOrderByContextsGo s fuel e

def findOrderByContexts (s : List Nat) : List (List Nat) :=
  findOrderByContextsGo s (s.length + 1) 0

/-- One match of `SELECT\s+DISTINCT\s+(?!TOP)` (case-insensitive).  The
greedy `\s+` backtracks against the lookahead: when TOP follows the spaces,
one space is given back (a space then satisfies the lookahead), which needs
at least two spaces to succeed. -/
def selDistinctAt (s : List Nat) : Option (List Nat × List Nat) := do
  let (sel, r1) ← ciTake (toCodes "SELECT") s
  let (w1, r2) ← spaces1 r1
  let (d, r3) ← ciTake (toCodes "DISTINCT") r2
  let (sp, r4) ← spaces1 r3
  if startsWithCI (toCodes "TOP") r4 then
    if 2 ≤ sp.length then
      some (sel ++ w1 ++ d ++ sp.take (sp.length - 1), sp.drop (sp.length - 1) ++ r4)
    else none
  else some (sel ++ w1 ++ d ++ sp, r4)

/-- The Fix-4 rewrite: `SELECT DISTINCT ` becomes `SELECT DISTINCT TOP 100 `. -/
def selDistinctM : Matcher (List Nat) := fun _ s =>
  match selDistinctAt s with
  | some (mt, rest) => some (mt, toCodes "SELECT DISTINCT TOP 100 ", rest)
  | none => none

/-- Fix 4: DISTINCT contexts with ORDER BY and no OFFSET get TOP 100. -/
def sqlFix4 (q : List Nat) : List Nat :=
  (findOrderByContexts q).foldl
    (fun acc ctx =>
      if existsM selDistinctM ctx && !hasOffsetWord ctx && hasOrderByWord ctx then
        replaceFirstStr acc ctx (replFirst selDistinctM ctx)
      else acc) q

/-- The head of the Fix-1 pattern, `\/\*\s*SELECT\s+TOP\s+`:
`(consumed, rest)`. -/
def topCommentHead (s : List Nat) : Option (List Nat × List Nat) := do
  let (op, r1) ← csTake (toCodes "/*") s
  let (w1, r2) := spaces0 r1
  let (sel, r3) ← ciTake (toCodes "SELECT") r2
  let (s1, r4) ← spaces1 r3
  let (top, r5) ← ciTake (toCodes "TOP") r4
  let (s2, r6) ← spaces1 r5
  some (op ++ w1 ++ sel ++ s1 ++ top ++ s2, r6)

/-- Fix 1: `/\/\*\s*SELECT\s+TOP\s+\d+\s+converted\s*\*\//gi`, replaced by
`TOP 1`. -/
def topCommentM : Matcher (List Nat) := fun _ s => do
  let (hd, r1) ← topCommentHead s
  let (ds, r2) ← digits1 r1
  let (s3, r3) ← spaces1 r2
  let (cv, r4) ← ciTake (toCodes "converted") r3
  let (w2, r5) := spaces0 r4
  let (cl, r6) ← csTake (toCodes "*/") r5
  some (hd ++ ds ++ s3 ++ cv ++ w2 ++ cl, toCodes "TOP 1", r6)

def sqlFix1 (q : List Nat) : List Nat := replAll topCommentM q

/-- First half of the Fix-5 pattern, `OFFSET\s+(\d+)\s+ROWS\s+FETCH\s+`:
`(consumed, first digit group, rest)`. -/
def offsetPart1 (s : List Nat) : Option (List Nat × List Nat × List Nat) := do
  let (o, r1) ← ciTake (toCodes "OFFSET") s
  let (w1, r2) ← spaces1 r1
  let (d1, r3) ← digits1 r2
  let (w2, r4) ← spaces1 r3
  let (rw, r5) ← ciTake (toCodes "ROWS") r4
  let (w3, r6) ← spaces1 r5
  let (ft, r7) ← ciTake (toCodes "FETCH") r6
  let (w4, r8) ← spaces1 r7
  some (o ++ w1 ++ d1 ++ w2 ++ rw ++ w3 ++ ft ++ w4, d1, r8)

/-- Second half of the Fix-5 pattern, `(?:NEXT|FIRST)\s+(\d+)\s+ROWS\s+ONLY`:
`(consumed, second digit group, rest)`. -/
def offsetPart2 (s : List Nat) : Option (List Nat × List Nat × List Nat) := do
  let (nx, r1) ← ciTake (toCodes "NEXT") s <|> ciTake (toCodes "FIRST") s
  let (w1, r2) ← spaces1 r1
  let (d2, r3) ← digits1 r2
  let (w2, r4) ← spaces1 r3
  let (rw, r5) ← ciTake (toCodes "ROWS") r4
  let (w3, r6) ← spaces1 r5
  let (onl, r7) ← ciTake (toCodes "ONLY") r6
  some (nx ++ w1 ++ d2 ++ w2 ++ rw ++ w3 ++ onl, d2, r7)

/-- Fix 5:
`OFFSET\s+(\d+)\s+ROWS\s+FETCH\s+(?:NEXT|FIRST)\s+(\d+)\s+ROWS\s+ONLY`
(global, case-insensitive), normalized to
`OFFSET $1 ROWS FETCH NEXT $2 ROWS ONLY`. -/
def offsetFetchM : Matcher (List Nat) := fun _ s => do
  let (c1, d1, r1) ← offsetPart1 s
  let (c2, d2, r2) ← offsetPart2 r1
  some (c1 ++ c2,
    toCodes "OFFSET " ++ d1 ++ toCodes " ROWS FETCH NEXT " ++ d2 ++ toCodes " ROWS ONLY",
    r2)

def sqlFix5 (q : List Nat) : List Nat := replAll offsetFetchM q

def fixSQLServerSyntaxIssues (sqlQuery : String) : String :=
  if sqlQuery = "" then sqlQuery
  else ofCodes (sqlFix5 (sqlFix4 (sqlFix3 (sqlFix2 (sqlFix1 (toCodes sqlQuery))))))

/-- The TOP/OFFSET scenario wrapped in a parenthesized subquery, where the
Fix-3 rule of fixSQLServerSyntaxIssues applies. -/
def topOffsetSubquery : String :=
  "SELECT * FROM (SELECT TOP 10 x FROM T ORDER BY X OFFSET 5 ROWS FETCH NEXT 10 ROWS ONLY) AS q"

/-- The subquery scenario after the Fix-3 rewrite. -/
def topOffsetSubqueryFixed : String :=
  "SELECT * FROM (SELECT DISTINCT x FROM T ORDER BY X OFFSET 5 ROWS FETCH NEXT 10 ROWS ONLY) AS q"

theorem topQ_fix1 : sqlFix1 (toCodes topOffsetQuery) = toCodes topOffsetQuery := by decide

theorem topQ_fix2 : sqlFix2 (toCodes topOffsetQuery) = toCodes topOffsetQuery := by decide

theorem topQ_fix3 : sqlFix3 (toCodes topOffsetQuery) = toCodes topOffsetQuery := by decide

theorem topQ_fix4 : sqlFix4 (toCodes topOffsetQuery) = toCodes topOffsetQuery := by decide

theorem topQ_fix5 : sqlFix5 (toCodes topOffsetQuery) = toCodes topOffsetQuery := by decide

/-- fixSQLServerSyntaxIssues maps the top-level TOP/OFFSET scenario to
itself (Fix 3 only fires inside parenthesized subqueries; Fix 5 rewrites the
already-canonical OFFSET clause to itself). -/
theorem topQ_syntax_fix_id : fixSQLServerSyntaxIssues topOffsetQuery = topOffsetQuery := by
  unfold fixSQLServerSyntaxIssues
  rw [if_neg (by decide : ¬(topOffsetQuery = ""))]
  rw [topQ_fix1, topQ_fix2, topQ_fix3, topQ_fix4, topQ_fix5]
  decide

theorem subQ_fix1 : sqlFix1 (toCodes topOffsetSubquery) = toCodes topOffsetSubquery := by
  decide

theorem subQ_fix2 : sqlFix2 (toCodes topOffsetSubquery) = toCodes topOffsetSubquery := by
  decide

theorem subQ_fix3 : sqlFix3 (toCodes topOffsetSubquery) = toCodes topOffsetSubqueryFixed := by
  decide

theorem subQ_fix4 : sqlFix4 (toCodes topOffsetSubqueryFixed) = toCodes topOffsetSubqueryFixed := by
  decide

theorem subQ_fix5 : sqlFix5 (toCodes topOffsetSubqueryFixed) = toCodes topOffsetSubqueryFixed := by
  decide

/-- The Fix-3 rewrite on the subquery scenario: TOP dropped, DISTINCT
inserted, OFFSET/FETCH kept. -/
theorem subQ_syntax_fix : fixSQLServerSyntaxIssues topOffsetSubquery = topOffsetSubqueryFixed := by
  unfold fixSQLServerSyntaxIssues
  rw [if_neg (by decide : ¬(topOffsetSubquery = ""))]
  rw [subQ_fix1, subQ_fix2, subQ_fix3, subQ_fix4, subQ_fix5]
  decide

/-- C2, counterexample: on the scenario input the substring `TOP 10` is not
removed by either TOP/OFFSET pass: fixTopWithTiesAndOffset keeps it inside
the conversion comment, and fixSQLServerSyntaxIssues returns the top-level
query completely unchanged (its conflict rule only fires inside parenthesized
`(SELECT ...)` subqueries). -/
theorem C2_top_not_removed_counterexample :
    includesCS (toCodes "TOP 10") (toCodes (fixTopWithTiesAndOffset topOffsetQuery)) = true ∧
    fixSQLServerSyntaxIssues topOffsetQuery = topOffsetQuery :=
  ⟨by decide, topQ_syntax_fix_id⟩

/-- C2 (amended): for the scenario input, fixTopWithTiesAndOffset rewrites
`SELECT TOP 10 ` to `SELECT /* SELECT TOP 10 converted */ ` — the TOP clause
is neutralized inside a block comment rather than deleted — and preserves
`OFFSET 5 ROWS FETCH NEXT 10 ROWS ONLY` verbatim; fixSQLServerSyntaxIssues
leaves the top-level scenario unchanged, and when TOP and OFFSET...FETCH meet
inside a parenthesized subquery it drops `SELECT TOP 10` by replacing it with
`SELECT DISTINCT`, keeping the OFFSET/FETCH clause verbatim. -/
theorem C2_top_offset_conflict_behavior :
    fixTopWithTiesAndOffset topOffsetQuery =
      "SELECT /* SELECT TOP 10 converted */ * FROM T ORDER BY X OFFSET 5 ROWS FETCH NEXT 10 ROWS ONLY" ∧
    includesCS (toCodes "OFFSET 5 ROWS FETCH NEXT 10 ROWS ONLY")
      (toCodes (fixTopWithTiesAndOffset topOffsetQuery)) = true ∧
    fixSQLServerSyntaxIssues topOffsetQuery = topOffsetQuery ∧
    fixSQLServerSyntaxIssues topOffsetSubquery = topOffsetSubqueryFixed ∧
    includesCS (toCodes "OFFSET 5 ROWS FETCH NEXT 10 ROWS ONLY")
      (toCodes topOffsetSubqueryFixed) = true :=
  ⟨by decide, by decide, topQ_syntax_fix_id, subQ_syntax_fix, by decide⟩


/-! ### C6: the ORDER-BY-in-subquery rule of fixSQLServerSyntaxIssues -/

theorem csDrop_append (pat t : List Nat) : csDrop pat (pat ++ t) = some t := by
  induction pat with
  | nil => rfl
  | cons p ps ih => simp [csDrop, ih]

theorem startsWithCS_append (pat t : List Nat) : startsWithCS pat (pat ++ t) = true := by
  simp [startsWithCS, csDrop_append]

theorem replaceFirstStr_head (pat r s : List Nat) (hp : pat ≠ [])
    (h : startsWithCS pat s = true) :
    replaceFirstStr s pat r = r ++ s.drop pat.length := by
  cases s with
  | nil =>
    cases pat with
    | nil => exact absurd rfl hp
    | cons p ps => simp [startsWithCS, csDrop] at h
  | cons c cs => simp [replaceFirstStr, h]

/-- No (case-sensitive) occurrence of `pat` starts strictly inside the prefix
`pre` of `pre ++ tail`. -/
def noStrOcc (pat : List Nat) : List Nat → List Nat → Bool
  | [], _ => true
  | c :: cs, tail => !startsWithCS pat (c :: cs ++ tail) && noStrOcc pat cs tail

theorem replaceFirstStr_append (pat r : List Nat) (hne : pat ≠ []) :
    ∀ (pre post : List Nat), noStrOcc pat pre (pat ++ post) = true →
      replaceFirstStr (pre ++ pat ++ post) pat r = pre ++ r ++ post := by
  intro pre
  induction pre with
  | nil =>
    intro post _
    rw [List.nil_append, List.nil_append,
      replaceFirstStr_head pat r (pat ++ post) hne (startsWithCS_append pat post),
      List.drop_left]
  | cons c cs ih =>
    intro post h
    simp only [noStrOcc, Bool.and_eq_true, Bool.not_eq_true'] at h
    have h1 : startsWithCS pat (c :: (cs ++ (pat ++ post))) = false := h.1
    have h2 := ih post h.2
    calc replaceFirstStr ((c :: cs) ++ pat ++ post) pat r
        = replaceFirstStr (c :: (cs ++ (pat ++ post))) pat r := by
          simp [List.append_assoc]
      _ = c :: replaceFirstStr (cs ++ (pat ++ post)) pat r := by
          simp only [replaceFirstStr, h1]
          simp
      _ = c :: (cs ++ r ++ post) := by
          rw [← List.append_assoc, h2]
      _ = (c :: cs) ++ r ++ post := by simp

theorem replFirstGo_cons_some (m : Matcher (List Nat)) (f : Nat) (prev : Option Nat)
    (c : Nat) (cs mt rp rest : List Nat) (h : m prev (c :: cs) = some (mt, rp, rest)) :
    replFirstGo m (f + 1) prev (c :: cs) = rp ++ rest := by
  rw [replFirstGo, h]

theorem replAllGo_cons_some (m : Matcher (List Nat)) (f : Nat) (prev : Option Nat)
    (c : Nat) (cs mt rp rest : List Nat) (h : m prev (c :: cs) = some (mt, rp, rest)) :
    replAllGo m (f + 1) prev (c :: cs) = rp ++ replAllGo m f (lastOpt prev mt) rest := by
  rw [replAllGo, h]

theorem replFirst_decompose (m : Matcher (List Nat)) (a mid rp b : List Nat)
    (hpre : noMatchPre m none a (mid ++ b) = true)
    (hm : m (lastOpt none a) (mid ++ b) = some (mid, rp, b))
    (hne : mid ≠ []) :
    replFirst m (a ++ (mid ++ b)) = a ++ (rp ++ b) := by
  unfold replFirst
  have hlen : (a ++ (mid ++ b)).length + 1 = a.length + ((mid ++ b).length + 1) := by
    simp [List.length_append]; omega
  rw [hlen, replFirstGo_append m a (mid ++ b) ((mid ++ b).length + 1) none hpre]
  have hrest : replFirstGo m ((mid ++ b).length + 1) (lastOpt none a) (mid ++ b) = rp ++ b := by
    cases hmb : mid ++ b with
    | nil =>
      cases mid with
      | nil => exact absurd rfl hne
      | cons x xs => simp at hmb
    | cons c cs =>
      rw [hmb] at hm
      exact replFirstGo_cons_some m (c :: cs).length (lastOpt none a) c cs mid rp b hm
  rw [hrest]

theorem foldl_guard_skip (p : List Nat → Bool) (g : List Nat → List Nat → List Nat) :
    ∀ (l : List (List Nat)) (acc : List Nat), (∀ x ∈ l, p x = false) →
      l.foldl (fun acc sub => if p sub then g acc sub else acc) acc = acc := by
  intro l
  induction l with
  | nil => intro acc _; rfl
  | cons x xs ih =>
    intro acc h
    have hx : p x = false := h x (List.mem_cons_self x xs)
    simp only [List.foldl_cons, hx, Bool.false_eq_true, if_false]
    exact ih acc fun y hy => h y (List.mem_cons_of_mem x hy)

theorem foldl_guard_single (p : List Nat → Bool) (g : List Nat → List Nat → List Nat)
    (l1 l2 : List (List Nat)) (s acc : List Nat)
    (h1 : ∀ x ∈ l1, p x = false) (h2 : ∀ x ∈ l2, p x = false) (hs : p s = true) :
    (l1 ++ s :: l2).foldl (fun acc sub => if p sub then g acc sub else acc) acc =
      g acc s := by
  rw [List.foldl_append, foldl_guard_skip p g l1 acc h1]
  simp only [List.foldl_cons, hs, if_true]
  exact foldl_guard_skip p g l2 (g acc s) h2

/-- C6: for a query with a parenthesized `(SELECT ...)` subquery whose text
contains `ORDER BY` but no `TOP n`, no `OFFSET` and no `FOR XML`
(`subqueryNeedsTop`), fixSQLServerSyntaxIssues rewrites that subquery's first
word-bounded SELECT (not already followed by TOP) to `SELECT TOP 100`, while
subqueries that fail the guard — in particular those already containing TOP,
OFFSET or FOR XML — are not modified by this rule.  The hypotheses name the
decomposition: `s` is the listed subquery, the query splits as
`pre ++ s ++ post` at the first occurrence of `s`, the injection point splits
`s` as `a ++ selTok ++ b`, all other listed subqueries fail the guard, and
the remaining four rewrites leave the result untouched. -/
theorem C6_subquery_order_by_top_injection :
    (∀ (q : String) (subs1 subs2 : List (List Nat)) (s pre post a selTok b mid : List Nat),
      q ≠ "" →
      sqlFix1 (toCodes q) = toCodes q →
      findSubqueries (toCodes q) = subs1 ++ s :: subs2 →
      (∀ t ∈ subs1, subqueryNeedsTop t = false) →
      (∀ t ∈ subs2, subqueryNeedsTop t = false) →
      subqueryNeedsTop s = true →
      toCodes q = pre ++ (s ++ post) →
      noStrOcc s pre (s ++ post) = true →
      s = a ++ (selTok ++ b) →
      selTok ≠ [] →
      noMatchPre selectNotTopM none a (selTok ++ b) = true →
      selectNotTopM (lastOpt none a) (selTok ++ b) =
        some (selTok, toCodes "SELECT TOP 100", b) →
      mid = pre ++ ((a ++ (toCodes "SELECT TOP 100" ++ b)) ++ post) →
      sqlFix3 mid = mid → sqlFix4 mid = mid → sqlFix5 mid = mid →
      fixSQLServerSyntaxIssues q = ofCodes mid) ∧
    (∀ q : List Nat, (∀ t ∈ findSubqueries q, subqueryNeedsTop t = false) →
      sqlFix2 q = q) := by
  constructor
  · intro q subs1 subs2 s pre post a selTok b mid hq hf1 hsubs hs1 hs2 hcond hdec hocc
      hsdec hselne hnm hsel hmid h3 h4 h5
    have hsne : s ≠ [] := by
      rw [hsdec]
      intro hcontra
      rcases List.append_eq_nil.mp hcontra with ⟨_, hb⟩
      rcases List.append_eq_nil.mp hb with ⟨hsel0, _⟩
      exact hselne hsel0
    have hinj : injectTop100 s = a ++ (toCodes "SELECT TOP 100" ++ b) := by
      rw [hsdec]
      exact replFirst_decompose selectNotTopM a selTok (toCodes "SELECT TOP 100") b hnm hsel hselne
    have hfix2 : sqlFix2 (toCodes q) = replaceFirstStr (toCodes q) s (injectTop100 s) := by
      unfold sqlFix2
      rw [hsubs]
      exact foldl_guard_single subqueryNeedsTop
        (fun acc sub => replaceFirstStr acc sub (injectTop100 sub)) subs1 subs2 s
        (toCodes q) hs1 hs2 hcond
    have hrepl : replaceFirstStr (toCodes q) s (injectTop100 s) = mid := by
      rw [hdec, hmid, hinj]
      have h := replaceFirstStr_append s (a ++ (toCodes "SELECT TOP 100" ++ b)) hsne pre post hocc
      simpa [List.append_assoc] using h
    unfold fixSQLServerSyntaxIssues
    rw [if_neg hq, hf1, hfix2, hrepl, h3, h4, h5]
  · intro q h
    unfold sqlFix2
    exact foldl_guard_skip subqueryNeedsTop _ (findSubqueries q) q h

/-- Witness for C6: the ORDER-BY subquery of a concrete query gets
`SELECT TOP 100`, and a query whose only subquery already has TOP is left
unchanged by the Fix-2 rule. -/
theorem C6_subquery_order_by_top_injection_witness :
    fixSQLServerSyntaxIssues "SELECT * FROM (SELECT name FROM Users ORDER BY name) AS u" =
      "SELECT * FROM (SELECT TOP 100 name FROM Users ORDER BY name) AS u" ∧
    sqlFix2 (toCodes "SELECT * FROM (SELECT TOP 5 x FROM T ORDER BY x) y") =
      toCodes "SELECT * FROM (SELECT TOP 5 x FROM T ORDER BY x) y" := by
  constructor
  · have h := C6_subquery_order_by_top_injection.1
      "SELECT * FROM (SELECT name FROM Users ORDER BY name) AS u"
      [] [] (toCodes "(SELECT name FROM Users ORDER BY name)") (toCodes "SELECT * FROM ")
      (toCodes " AS u") (toCodes "(") (toCodes "SELECT")
      (toCodes " name FROM Users ORDER BY name)")
      (toCodes "SELECT * FROM (SELECT TOP 100 name FROM Users ORDER BY name) AS u")
      (by decide) (by decide) (by decide) (by simp) (by simp) (by decide) (by decide)
      (by decide) (by decide) (by decide) (by decide) (by decide) (by decide) (by decide)
      (by decide) (by decide)
    rw [h]
    decide
  · exact C6_subquery_order_by_top_injection.2 _ (by decide)

/-! ### Malformed-JOIN repairer (helper module, fixMalformedJoins)

Two one-shot passes (unwrapping complete bracketed clauses, re-merging a
split bracketed table name) followed by a battery of six global rewrites that
are re-run until the query stops changing. -/

/-- Upper-case fold of an ASCII character code (JS `toUpperCase`). -/
def upCode (n : Nat) : Nat := if 97 ≤ n ∧ n ≤ 122 then n - 32 else n

/-- Not a `]` (the `[^\]]` character class). -/
def notRb (c : Nat) : Bool := c != 93

/-- Not a bracket (the `[^\[\]]` character class). -/
def notBracket (c : Nat) : Bool := c != 91 && c != 93

/-- `[A-Za-z_]`, the first character of an identifier. -/
def identStart (c : Nat) : Bool :=
  decide ((65 ≤ c ∧ c ≤ 90) ∨ (97 ≤ c ∧ c ≤ 122) ∨ c = 95)

/-- `[A-Za-z_][A-ZaZ0-9_]*` under the /i flag (the class typo in the source
collapses to all alphanumerics case-insensitively). -/
def ident1 (s : List Nat) : Option (List Nat × List Nat) :=
  match s with
  | [] => none
  | c :: cs =>
    if identStart c then
      match cs.span isWordCode with
      | (w, r) => some (c :: w, r)
    else none

/-- `split(/\s+/).filter(Boolean)`. -/
def splitWsGo : Nat → List Nat → List (List Nat)
  | 0, _ => []
  | f + 1, s =>
    let s1 := s.dropWhile isSpaceCode
    match many1 (fun c => !isSpaceCode c) s1 with
    | some (w, r) => w :: splitWsGo f r
    | none => []

def splitWs (s : List Nat) : List (List Nat) := splitWsGo (s.length + 1) s

/-- `tokens.join(' ')`. -/
def joinWs : List (List Nat) → List Nat
  | [] => []
  | [w] => w
  | w :: ws => w ++ 32 :: joinWs ws

/-- `String.split('.')` (dot = code 46; empty segments are kept). -/
def splitOnDots : List Nat → List (List Nat)
  | [] => [[]]
  | c :: cs =>
    if c = 46 then [] :: splitOnDots cs
    else
      match splitOnDots cs with
      | h :: t => (c :: h) :: t
      | [] => [[c]]

/-- `.replace(/^\[|\]$/g, '')` followed by `.trim()`: one leading `[` and one
trailing `]` are dropped. -/
def removeBrackets (s : List Nat) : List Nat :=
  let s1 := if s.head? = some 91 then s.tail else s
  let s2 := if s1.getLast? = some 93 then s1.dropLast else s1
  trimStr s2

/-- `.replace(/\.$/, '')`. -/
def stripTrailingDot (s : List Nat) : List Nat :=
  if s.getLast? = some 46 then s.dropLast else s

/-- `.replace(/^\.+/, '')`. -/
def stripLeadingDots (s : List Nat) : List Nat := s.dropWhile (· == 46)

/-- formatTableNameForSQLServer: bracket the table segment, and the schema
segment only when it contains a non-identifier character.  `none` embeds the
TypeError the source raises when every dot-segment trims to empty (callers
wrap the call in try/catch and keep the match unchanged). -/
def formatTableNameForSQLServer (name : List Nat) : Option (List Nat) :=
  if name.isEmpty then some name
  else
    match ((splitOnDots name).map trimStr).filter (fun p => !p.isEmpty) with
    | [p1, p2] =>
      let schema := removeBrackets p1
      let table := removeBrackets p2
      let fs :=
        if schema.any (fun c => !isWordCode c) then 91 :: schema ++ [93] else schema
      some (fs ++ 46 :: 91 :: table ++ [93])
    | p1 :: _ => some (91 :: removeBrackets p1 ++ [93])
    | [] => none

/-- The leading `(\bFROM|\bJOIN)\s+` of several join patterns:
`(keyword, whitespace, rest)`. -/
def kwFromJoin (prev : Option Nat) (s : List Nat) : Option (List Nat × List Nat × List Nat) :=
  if wordy prev then none
  else
    match ciTake (toCodes "FROM") s <|> ciTake (toCodes "JOIN") s with
    | some (kw, r1) =>
      match spaces1 r1 with
      | some (w, r2) => some (kw, w, r2)
      | none => none
    | none => none

/-! #### One-shot pass 1: unwrap `[FROM ...]` / `[JOIN ...]` clauses

`/\[\s*(FROM|JOIN|INNER\s+JOIN|LEFT\s+JOIN|RIGHT\s+JOIN)\s+([^\]]+)\]/gi`,
replaced by `${keyword} ${content}`. -/

/-- One alternative of the unwrap keyword group, with the pattern tail. -/
def unwrapTail (ob w0 kw : List Nat) (r : List Nat) :
    Option (List Nat × List Nat × List Nat) := do
  let (w1, r1) ← spaces1 r
  let (content, r2) ← many1 notRb r1
  let (cb, r3) ← csTake (toCodes "]") r2
  some (ob ++ w0 ++ kw ++ w1 ++ content ++ cb, kw ++ 32 :: content, r3)

/-- The two-word keyword alternatives `INNER\s+JOIN` etc. -/
def kwPair (a b : List Nat) (s : List Nat) : Option (List Nat × List Nat) := do
  let (x, r1) ← ciTake a s
  let (w, r2) ← spaces1 r1
  let (y, r3) ← ciTake b r2
  some (x ++ w ++ y, r3)

def joinUnwrapM : Matcher (List Nat) := fun _ s => do
  let (ob, r1) ← csTake (toCodes "[") s
  let (w0, r2) := spaces0 r1
  (do let (kw, r3) ← ciTake (toCodes "FROM") r2; unwrapTail ob w0 kw r3) <|>
  (do let (kw, r3) ← ciTake (toCodes "JOIN") r2; unwrapTail ob w0 kw r3) <|>
  (do let (kw, r3) ← kwPair (toCodes "INNER") (toCodes "JOIN") r2; unwrapTail ob w0 kw r3) <|>
  (do let (kw, r3) ← kwPair (toCodes "LEFT") (toCodes "JOIN") r2; unwrapTail ob w0 kw r3) <|>
  (do let (kw, r3) ← kwPair (toCodes "RIGHT") (toCodes "JOIN") r2; unwrapTail ob w0 kw r3)

def joinUnwrap (q : List Nat) : List Nat := replAll joinUnwrapM q

/-! #### One-shot pass 2: re-merge `[Table] Name]`

`/\[([^\[\]]+)\]\s+([^\[\]]+)\]/g` (case-sensitive) with a guard battery in
the callback. -/

/-- Full-string case-insensitive equality. -/
def ciEqStr (a b : List Nat) : Bool := (a.map lowCode) == (b.map lowCode)

/-- `/^(?:ON|AND|OR|...)$/i`: the excluded SQL keywords. -/
def isSqlKeywordFull (t : List Nat) : Bool :=
  ["ON", "AND", "OR", "WHERE", "FROM", "JOIN", "INNER", "LEFT", "RIGHT", "FULL",
    "CROSS", "OUTER", "HAVING", "GROUP", "ORDER", "BY", "ASC", "DESC", "UNION",
    "ALL", "ANY", "SOME", "EXISTS", "IN", "AS", "IS", "NULL", "NOT", "TRUE",
    "FALSE"].any (fun k => ciEqStr (toCodes k) t)

/-- `/^[=<>!+\-*/,;()]+/`: starts with an operator character. -/
def opStart (t : List Nat) : Bool :=
  match t.head? with
  | some c => decide (c = 61 ∨ c = 60 ∨ c = 62 ∨ c = 33 ∨ c = 43 ∨ c = 45 ∨
      c = 42 ∨ c = 47 ∨ c = 44 ∨ c = 59 ∨ c = 40 ∨ c = 41)
  | none => false

/-- `/^(?:ON|WHERE|GROUP|ORDER|HAVING)\b/i`. -/
def clauseStartTest (t : List Nat) : Bool :=
  ["ON", "WHERE", "GROUP", "ORDER", "HAVING"].any fun k =>
    match ciDrop (toCodes k) t with
    | some r => !wordy r.head?
    | none => false

/-- `/^[A-Za-z]/`. -/
def letterStart (t : List Nat) : Bool :=
  match t.head? with
  | some c => decide ((65 ≤ c ∧ c ≤ 90) ∨ (97 ≤ c ∧ c ≤ 122))
  | none => false

/-- The merge guard: part2 is not a keyword, neither part starts with an
operator, both are longer than one character, part2 does not start a clause,
and both start with a letter. -/
def mergeGuard (p1 p2 : List Nat) : Bool :=
  !isSqlKeywordFull p2 && !opStart p2 && !opStart p1 &&
    decide (1 < p1.length) && decide (1 < p2.length) && !clauseStartTest p2 &&
    letterStart p1 && letterStart p2

def joinMergeM : Matcher (List Nat) := fun _ s => do
  let (ob, r1) ← csTake (toCodes "[") s
  let (p1, r2) ← many1 notBracket r1
  let (cb, r3) ← csTake (toCodes "]") r2
  let (w, r4) ← spaces1 r3
  let (wUsed, p2, r6) ←
    (match many1 notBracket r4 with
      | some (t, r5) =>
        match csTake (toCodes "]") r5 with
        | some (_, r6) => some (w, t, r6)
        | none => none
      | none =>
        -- `]` directly after the spaces: the greedy \s+ gives one space back
        if 2 ≤ w.length then
          match csTake (toCodes "]") r4 with
          | some (_, r6) => some (w.take (w.length - 1), w.drop (w.length - 1), r6)
          | none => none
        else none)
  let mt := ob ++ p1 ++ cb ++ wUsed ++ p2 ++ [93]
  some (mt, if mergeGuard p1 p2 then 91 :: p1 ++ 32 :: p2 ++ [93] else mt, r6)

def joinMerge (q : List Nat) : List Nat := replAll joinMergeM q

/-! #### Battery pass 1: the fully dotted JOIN pattern

`/(\bFROM|\bJOIN)\s+\[(dbo\.)?([\w\s]+)\.(\w+)\.(?:INNER\.)?JOIN\.\[(dbo\.)?([\w\s]+)\.(\w+)\.ON\.(\w+)\.(\w+)\s*=\s*(\w+)\.(\w+)\]/gi` -/

/-- `(dbo\.)?([\w\s]+)\.(\w+)\.`: `((consumed, rawSchema, table, alias), rest)`;
the optional `dbo.` is tried first and given up if the tail fails. -/
def p1Seg (s : List Nat) : Option ((List Nat × List Nat × List Nat × List Nat) × List Nat) :=
  let core := fun (dboC r0 : List Nat) => do
    let (t1, r1) ← many1 (fun c => isWordCode c || isSpaceCode c) r0
    let (d1, r2) ← csTake (toCodes ".") r1
    let (a1, r3) ← word1 r2
    let (d2, r4) ← csTake (toCodes ".") r3
    some ((dboC ++ t1 ++ d1 ++ a1 ++ d2, dboC, t1, a1), r4)
  (do
    let (db, rd) ← ciTake (toCodes "dbo.") s
    core db rd) <|> core [] s

/-- `(?:INNER\.)?JOIN\.` plus, when `withBracket`, the literal `[`. -/
def p1Join (withBracket : Bool) (s : List Nat) : Option (List Nat × List Nat) :=
  let tail := fun (pre r1 : List Nat) => do
    let (j, r2) ← ciTake (toCodes "JOIN.") r1
    if withBracket then do
      let (ob, r3) ← csTake (toCodes "[") r2
      some (pre ++ j ++ ob, r3)
    else some (pre ++ j, r2)
  (do
    let (iN, r1) ← ciTake (toCodes "INNER.") s
    tail iN r1) <|> tail [] s

/-- `ON\.(\w+)\.(\w+)\s*=\s*(\w+)\.(\w+)\]`:
`((consumed, prefix1, col1, prefix2, col2), rest)`. -/
def p1Tail (s : List Nat) : Option ((List Nat × List Nat × List Nat × List Nat × List Nat) × List Nat) := do
  let (onc, r0) ← ciTake (toCodes "ON.") s
  let (px1, r1) ← word1 r0
  let (d1, r2) ← csTake (toCodes ".") r1
  let (c1, r3) ← word1 r2
  let (w1, r4) := spaces0 r3
  let (eq, r5) ← csTake (toCodes "=") r4
  let (w2, r6) := spaces0 r5
  let (px2, r7) ← word1 r6
  let (d2, r8) ← csTake (toCodes ".") r7
  let (c2, r9) ← word1 r8
  let (cb, r10) ← csTake (toCodes "]") r9
  some ((onc ++ px1 ++ d1 ++ c1 ++ w1 ++ eq ++ w2 ++ px2 ++ d2 ++ c2 ++ cb,
    px1, c1, px2, c2), r10)

/-- `schema ? schema.replace(/\.$/, '') : 'dbo'`. -/
def schemaOrDbo (sRaw : List Nat) : List Nat :=
  if sRaw.isEmpty then toCodes "dbo" else stripTrailingDot sRaw

def joinPass1M : Matcher (List Nat) := fun prev s => do
  let (kw, w1, r2) ← kwFromJoin prev s
  let (ob, r3) ← csTake (toCodes "[") r2
  let ((seg1txt, sc1, t1, a1), r4) ← p1Seg r3
  let (jtxt, r5) ← p1Join true r4
  let ((seg2txt, sc2, t2, a2), r6) ← p1Seg r5
  let ((tailtxt, _px1, c1, px2, c2), r7) ← p1Tail r6
  some (kw ++ w1 ++ ob ++ seg1txt ++ jtxt ++ seg2txt ++ tailtxt,
    kw ++ toCodes " [" ++ schemaOrDbo sc1 ++ toCodes "].[" ++ t1 ++ toCodes "] " ++ a1 ++
      toCodes " INNER JOIN [" ++ schemaOrDbo sc2 ++ toCodes "].[" ++ t2 ++ toCodes "] " ++
      a2 ++ toCodes " ON " ++ a1 ++ 46 :: c1 ++ toCodes " = " ++ px2 ++ 46 :: c2,
    r7)

def joinPass1 (q : List Nat) : List Nat := replAll joinPass1M q

/-! #### Battery pass 2: bracketed table followed by a bracket holding alias and ON

`/(\bFROM|\bJOIN)\s+(dbo\.)?(\[[^\]]+\])\s+(\w+)\s+(?:INNER\s+)?JOIN\s+(dbo\.)?(\[[^\]]+\s+(\w+)\s+ON\s+\w+\])\.(\w+)\s*=\s*(\w+)\.(\w+)/gi` -/

/-- `(\[[^\]]+\])`: a bracketed run, capture including the brackets. -/
def bracketRun (s : List Nat) : Option (List Nat × List Nat) := do
  let (ob, r1) ← csTake (toCodes "[") s
  let (content, r2) ← many1 notRb r1
  let (cb, r3) ← csTake (toCodes "]") r2
  some (ob ++ content ++ cb, r3)

/-- Split `content` as `[^\]]+\s+(\w+)\s+ON\s+\w+` from the right (the greedy
prefix forces the last admissible split): `(alias2)` when it parses. -/
def p2ContentSplit (content : List Nat) : Option (List Nat) := do
  let rev := content.reverse
  let (_w2, q1) ← many1 isWordCode rev
  let (_sp3, q2) ← many1 isSpaceCode q1
  let q3 ← ciDrop (toCodes "NO") q2
  let (_sp2, q4) ← many1 isSpaceCode q3
  let (a2rev, q5) ← many1 isWordCode q4
  let (_sp1, q6) ← many1 isSpaceCode q5
  if q6.isEmpty then none else some a2rev.reverse

/-- `(?:INNER\s+)?JOIN\s+`: consumed text. -/
def innerJoinOpt (s : List Nat) : Option (List Nat × List Nat) :=
  (do
    let (iN, r1) ← ciTake (toCodes "INNER") s
    let (w1, r2) ← spaces1 r1
    let (j, r3) ← ciTake (toCodes "JOIN") r2
    let (w2, r4) ← spaces1 r3
    some (iN ++ w1 ++ j ++ w2, r4)) <|>
  (do
    let (j, r1) ← ciTake (toCodes "JOIN") s
    let (w, r2) ← spaces1 r1
    some (j ++ w, r2))

/-- `(dbo\.)?` with the continuation supplied by the caller, `dbo.` first. -/
def dboOptThen (s : List Nat) (k : List Nat → List Nat → Option α) : Option α :=
  (do
    let (db, r1) ← ciTake (toCodes "dbo.") s
    k db r1) <|> k [] s

/-- `\.(\w+)\s*=\s*(\w+)\.(\w+)`: `((consumed, col1, prefix2, col2), rest)`. -/
def p2Tail (s : List Nat) : Option ((List Nat × List Nat × List Nat × List Nat) × List Nat) := do
  let (d0, r0) ← csTake (toCodes ".") s
  let (c1, r1) ← word1 r0
  let (w1, r2) := spaces0 r1
  let (eq, r3) ← csTake (toCodes "=") r2
  let (w2, r4) := spaces0 r3
  let (px2, r5) ← word1 r4
  let (d1, r6) ← csTake (toCodes ".") r5
  let (c2, r7) ← word1 r6
  some ((d0 ++ c1 ++ w1 ++ eq ++ w2 ++ px2 ++ d1 ++ c2, c1, px2, c2), r7)

def joinPass2M : Matcher (List Nat) := fun prev s => do
  let (kw, w1, r2) ← kwFromJoin prev s
  dboOptThen r2 fun db1 r3 => do
    let (tb1, r4) ← bracketRun r3
    let (wa, r5) ← spaces1 r4
    let (a1, r6) ← word1 r5
    let (wb, r7) ← spaces1 r6
    let (ij, r8) ← innerJoinOpt r7
    dboOptThen r8 fun db2 r9 => do
      let (tb2, r10) ← bracketRun r9
      let a2 ← p2ContentSplit (tb2.drop 1 |>.dropLast)
      let ((tailtxt, c1, px2, c2), r11) ← p2Tail r10
      -- the callback's inner replace `\s+alias2\s+ON\s+\w+$` cannot match
      -- tb2 (which ends with `]`), so tableName stays tb2
      some (kw ++ w1 ++ db1 ++ tb1 ++ wa ++ a1 ++ wb ++ ij ++ db2 ++ tb2 ++ tailtxt,
        kw ++ 32 :: (if db1.isEmpty then toCodes "dbo." else db1) ++ tb1 ++ 32 :: a1 ++
          toCodes " JOIN " ++ (if db2.isEmpty then toCodes "dbo." else db2) ++ tb2 ++
          32 :: a2 ++ toCodes " ON " ++ a1 ++ 46 :: c1 ++ toCodes " = " ++ px2 ++ 46 :: c2,
        r11)

def joinPass2 (q : List Nat) : List Nat := replAll joinPass2M q

/-! #### Battery pass 3: the dotted pattern with free-form ON conditions

`/(\bFROM|\bJOIN)\s+\[(dbo\.)?([\w\s]+)\.(\w+)\.(?:INNER\.)?JOIN\.(dbo\.)?([\w\s]+)\.(\w+)\.ON\.([^\]]+)\]/gi` -/

def joinPass3M : Matcher (List Nat) := fun prev s => do
  let (kw, w1, r2) ← kwFromJoin prev s
  let (ob, r3) ← csTake (toCodes "[") r2
  let ((seg1txt, sc1, t1, a1), r4) ← p1Seg r3
  let (jtxt, r5) ← p1Join false r4
  let ((seg2txt, sc2, t2, a2), r6) ← p1Seg r5
  let (onc, r7) ← ciTake (toCodes "ON.") r6
  let (conds, r8) ← many1 notRb r7
  let (cb, r9) ← csTake (toCodes "]") r8
  some (kw ++ w1 ++ ob ++ seg1txt ++ jtxt ++ seg2txt ++ onc ++ conds ++ cb,
    kw ++ toCodes " [" ++ schemaOrDbo sc1 ++ toCodes "].[" ++ t1 ++ toCodes "] " ++ a1 ++
      toCodes " INNER JOIN [" ++ schemaOrDbo sc2 ++ toCodes "].[" ++ t2 ++ toCodes "] " ++
      a2 ++ toCodes " ON " ++ conds,
    r9)

def joinPass3 (q : List Nat) : List Nat := replAll joinPass3M q

/-! #### Battery pass 4 (pre-pass): move stray ON/JOIN keywords out of brackets

`/\[([^\]]*?\b(ON|INNER\s+JOIN|JOIN)\b[^\]]*?)\]/gi` with a callback driven
by `lastIndexOf` on the upper-cased content. -/

/-- Whether a word-bounded ON, INNER\s+JOIN or JOIN occurs in the content
(the character before the first content position is the opening `[`). -/
def kwBoundaryIn : Option Nat → List Nat → Bool
  | _, [] => false
  | prev, c :: cs =>
    (!wordy prev &&
      ((match ciDrop (toCodes "ON") (c :: cs) with
        | some r => !wordy r.head?
        | none => false) ||
      (match kwPair (toCodes "INNER") (toCodes "JOIN") (c :: cs) with
        | some (_, r) => !wordy r.head?
        | none => false) ||
      (match ciDrop (toCodes "JOIN") (c :: cs) with
        | some r => !wordy r.head?
        | none => false))) ||
    kwBoundaryIn (some c) cs

/-- The pre-pass callback: pick the last ` ON ` / ` INNER JOIN ` / ` JOIN `
(in that priority) in the upper-cased content; `idx` points at the leading
space, and the source slices `content.slice(idx + keyword.length)`, so the
tail keeps the final `N` of the keyword. -/
def prePassRepl (content mt : List Nat) : List Nat :=
  let up := content.map upCode
  let pick :=
    match lastIndexOfCS (toCodes " ON ") up with
    | some i => some (i, toCodes "ON")
    | none =>
      match lastIndexOfCS (toCodes " INNER JOIN ") up with
      | some i => some (i, toCodes "INNER JOIN")
      | none =>
        match lastIndexOfCS (toCodes " JOIN ") up with
        | some i => some (i, toCodes "JOIN")
        | none => none
  match pick with
  | none => mt
  | some (idx, kw) =>
    let before := trimStr (content.take idx)
    let after := trimStr (content.drop (idx + kw.length))
    let cleanedBefore :=
      if before.isEmpty then [] else 91 :: removeBrackets before ++ [93]
    let cleanedAfter := stripLeadingDots after
    cleanedBefore ++ 32 :: kw ++ 32 :: cleanedAfter

def joinPass4M : Matcher (List Nat) := fun _ s => do
  let (ob, r1) ← csTake (toCodes "[") s
  let (content, r2) ←
    match many1 notRb r1 with
    | some (c, r) => some (c, r)
    | none => some ([], r1)
  let (cb, r3) ← csTake (toCodes "]") r2
  if kwBoundaryIn (some 91) content then
    some (ob ++ content ++ cb, prePassRepl content (ob ++ content ++ cb), r3)
  else none

def joinPass4 (q : List Nat) : List Nat := replAll joinPass4M q

/-! #### Battery pass 5 (bracketOnPattern)

`/(\bFROM|\bJOIN)\s+([A-Za-z_][A-ZaZ0-9_]*\.)?\[([^\]]*ON[^\]]*)\]\.([A-Za-z_][A-ZaZ0-9_]*)\s*=\s*([^\s;]+)/gi` -/

/-- `([A-Za-z_][A-ZaZ0-9_]*\.)?` with the continuation, schema first. -/
def schemaOptThen (s : List Nat) (k : List Nat → List Nat → Option α) : Option α :=
  (do
    let (idn, r1) ← ident1 s
    let (d, r2) ← csTake (toCodes ".") r1
    k (idn ++ d) r2) <|> k [] s

/-- `[^\s;]+`. -/
def rhsRun (s : List Nat) : Option (List Nat × List Nat) :=
  many1 (fun c => !isSpaceCode c && c != 59) s

/-- The bracketOn callback: split the content at its last ` ON `; the part
before is `table [alias]`, the part after is the join predicate. -/
def bracketOnRepl (kw sch content lc rhs mt : List Nat) : List Nat :=
  let up := content.map upCode
  match lastIndexOfCS (toCodes " ON ") up with
  | none => mt
  | some onIdx =>
    let beforeOn := trimStr (content.take onIdx)
    let afterOn := trimStr (content.drop (onIdx + 4))
    let tokens := splitWs beforeOn
    let (alias_, tableName) :=
      if 2 ≤ tokens.length then (tokens.getLastD [], joinWs tokens.dropLast)
      else ([], beforeOn)
    let schema := stripTrailingDot sch
    match formatTableNameForSQLServer
        (if schema.isEmpty then tableName else schema ++ 46 :: tableName) with
    | none => mt
    | some formatted =>
      let sAfter := stripLeadingDots afterOn
      let sRhs := stripLeadingDots rhs
      if alias_.isEmpty then
        kw ++ 32 :: formatted ++ toCodes " ON " ++ sAfter ++ 46 :: lc ++ toCodes " = " ++ sRhs
      else
        kw ++ 32 :: formatted ++ 32 :: alias_ ++ toCodes " ON " ++ sAfter ++ 46 :: lc ++
          toCodes " = " ++ sRhs

def joinPass5M : Matcher (List Nat) := fun prev s => do
  let (kw, w1, r2) ← kwFromJoin prev s
  schemaOptThen r2 fun sch r3 => do
    let (ob, r4) ← csTake (toCodes "[") r3
    let (content, r5) ←
      match many1 notRb r4 with
      | some (c, r) => some (c, r)
      | none => some ([], r4)
    if !includesCI (toCodes "ON") content then none
    else do
      let (cb, r6) ← csTake (toCodes "]") r5
      let (d, r7) ← csTake (toCodes ".") r6
      let (lc, r8) ← ident1 r7
      let (wA, r9) := spaces0 r8
      let (eq, r10) ← csTake (toCodes "=") r9
      let (wB, r11) := spaces0 r10
      let (rhs, r12) ← rhsRun r11
      let mt := kw ++ w1 ++ sch ++ ob ++ content ++ cb ++ d ++ lc ++ wA ++ eq ++ wB ++ rhs
      some (mt, bracketOnRepl kw sch content lc rhs mt, r12)

def joinPass5 (q : List Nat) : List Nat := replAll joinPass5M q

/-! #### Battery pass 6 (bracketAliasPattern)

`/(\bFROM|\bJOIN)\s+([A-Za-z_][A-ZaZ0-9_]*\.)?\[([^\]]*?)\]\.?(?:([A-Za-z_][A-ZaZ0-9_]*)\s*)?\s*=\s*([^\s;]+)/gi` -/

/-- The optional `\.?(?:(ident)\s*)?\s*=\s*` tail after the bracket, in the
backtracking order dot+ident, dot, ident, neither:
`((consumed, leftColumnMaybe, rhs), rest)`. -/
def p6Tail (s : List Nat) : Option ((List Nat × List Nat × List Nat) × List Nat) :=
  let eqRhs := fun (pre : List Nat) (lc : List Nat) (r : List Nat) => do
    let (wA, r1) := spaces0 r
    let (eq, r2) ← csTake (toCodes "=") r1
    let (wB, r3) := spaces0 r2
    let (rhs, r4) ← rhsRun r3
    some ((pre ++ wA ++ eq ++ wB ++ rhs, lc, rhs), r4)
  (do
    let (d, r1) ← csTake (toCodes ".") s
    let (lc, r2) ← ident1 r1
    let (w, r3) := spaces0 r2
    eqRhs (d ++ lc ++ w) lc r3) <|>
  (do
    let (d, r1) ← csTake (toCodes ".") s
    eqRhs d [] r1) <|>
  (do
    let (lc, r1) ← ident1 s
    let (w, r2) := spaces0 r1
    eqRhs (lc ++ w) lc r2) <|>
  eqRhs [] [] s

/-- `rhs.split('.')[1] || ''`. -/
def secondDotSegment (s : List Nat) : List Nat :=
  match splitOnDots s with
  | _ :: seg :: _ => seg
  | _ => []

/-- The bracketAlias callback. -/
def bracketAliasRepl (kw sch content lcMaybe rhs mt : List Nat) : List Nat :=
  let tokens := splitWs (trimStr content)
  let (alias_, tableName) :=
    if 2 ≤ tokens.length then (tokens.getLastD [], joinWs tokens.dropLast)
    else ([], content)
  let leftColumn := if lcMaybe.isEmpty then secondDotSegment rhs else lcMaybe
  if leftColumn.isEmpty then mt
  else
    let schema := stripTrailingDot sch
    match formatTableNameForSQLServer
        (if schema.isEmpty then tableName else schema ++ 46 :: tableName) with
    | none => mt
    | some formatted =>
      if alias_.isEmpty then
        kw ++ 32 :: formatted ++ toCodes " ON " ++ tableName ++ 46 :: leftColumn ++
          toCodes " = " ++ rhs
      else
        kw ++ 32 :: formatted ++ 32 :: alias_ ++ toCodes " ON " ++ alias_ ++
          46 :: leftColumn ++ toCodes " = " ++ rhs

def joinPass6M : Matcher (List Nat) := fun prev s => do
  let (kw, w1, r2) ← kwFromJoin prev s
  schemaOptThen r2 fun sch r3 => do
    let (ob, r4) ← csTake (toCodes "[") r3
    let (content, r5) ←
      match many1 notRb r4 with
      | some (c, r) => some (c, r)
      | none => some ([], r4)
    let (cb, r6) ← csTake (toCodes "]") r5
    let ((tailtxt, lcMaybe, rhs), r7) ← p6Tail r6
    let mt := kw ++ w1 ++ sch ++ ob ++ content ++ cb ++ tailtxt
    some (mt, bracketAliasRepl kw sch content lcMaybe rhs mt, r7)

def joinPass6 (q : List Nat) : List Nat := replAll joinPass6M q

/-- One run of the in-loop battery, in source order. -/
def joinBattery (q : List Nat) : List Nat :=
  joinPass6 (joinPass5 (joinPass4 (joinPass3 (joinPass2 (joinPass1 q)))))

/-- The `do ... while (query !== prev)` loop.  The source loop is unbounded;
the fuel only bounds this embedding, and every equation proved below exits
through the fixed-point test. -/
def joinLoop : Nat → List Nat → List Nat
  | 0, q => q
  | f + 1, q =>
    let q' := joinBattery q
    if q' = q then q else joinLoop f q'

def fixMalformedJoins (query : String) : String :=
  if query = "" then query
  else ofCodes (joinLoop ((toCodes query).length + 100) (joinMerge (joinUnwrap (toCodes query))))
/-! ### C4: fixers are identities when none of their patterns match -/

theorem ofCodes_toCodes (s : String) : ofCodes (toCodes s) = s := by
  cases s with
  | mk data =>
    simp only [ofCodes, toCodes, List.map_map]
    congr 1
    induction data with
    | nil => rfl
    | cons c cs ih => simp [ih, Char.ofNat_toNat]

theorem joinLoop_of_fixed (f : Nat) (q : List Nat) (h : joinBattery q = q) :
    joinLoop f q = q := by
  cases f with
  | zero => rfl
  | succ f => simp [joinLoop, h]

/-- C4: a query on which none of the targeted malformation patterns fires —
no join-repair matcher matches anywhere, the TOP-with-OFFSET test fails, no
conversion comment or OFFSET...FETCH clause matches, and every subquery and
ORDER-BY context fails its rewrite guard — is returned unchanged by
fixMalformedJoins, fixSQLServerSyntaxIssues and fixTopWithTiesAndOffset: the
fixers are safe no-ops when their patterns do not match. -/
theorem C4_clean_input_fixers_identity (q : String) (hq : ¬(q = ""))
    (hTop : topOffsetTest (toCodes q) = false)
    (hU : noMatchAll joinUnwrapM none (toCodes q) = true)
    (hM : noMatchAll joinMergeM none (toCodes q) = true)
    (hP1 : noMatchAll joinPass1M none (toCodes q) = true)
    (hP2 : noMatchAll joinPass2M none (toCodes q) = true)
    (hP3 : noMatchAll joinPass3M none (toCodes q) = true)
    (hP4 : noMatchAll joinPass4M none (toCodes q) = true)
    (hP5 : noMatchAll joinPass5M none (toCodes q) = true)
    (hP6 : noMatchAll joinPass6M none (toCodes q) = true)
    (hF1 : noMatchAll topCommentM none (toCodes q) = true)
    (hF2 : ∀ sub ∈ findSubqueries (toCodes q), subqueryNeedsTop sub = false)
    (hF3 : ∀ sub ∈ findSubqueries (toCodes q),
      (existsM selTopM sub && hasOffsetFetch sub) = false)
    (hF4 : ∀ ctx ∈ findOrderByContexts (toCodes q),
      (existsM selDistinctM ctx && !hasOffsetWord ctx && hasOrderByWord ctx) = false)
    (hF5 : noMatchAll offsetFetchM none (toCodes q) = true) :
    fixMalformedJoins q = q ∧ fixSQLServerSyntaxIssues q = q ∧
      fixTopWithTiesAndOffset q = q := by
  have hid : ∀ (m : Matcher (List Nat)) (s : List Nat),
      noMatchAll m none s = true → replAll m s = s :=
    fun m s h => replAllGo_of_noMatchAll m s (s.length + 1) none h
  have hbat : joinBattery (toCodes q) = toCodes q := by
    unfold joinBattery joinPass1 joinPass2 joinPass3 joinPass4 joinPass5 joinPass6
    rw [hid _ _ hP1, hid _ _ hP2, hid _ _ hP3, hid _ _ hP4, hid _ _ hP5, hid _ _ hP6]
  refine ⟨?_, ?_, ?_⟩
  · unfold fixMalformedJoins joinMerge joinUnwrap
    rw [if_neg hq, hid _ _ hU, hid _ _ hM, joinLoop_of_fixed _ _ hbat, ofCodes_toCodes]
  · have h2 : sqlFix2 (sqlFix1 (toCodes q)) = toCodes q := by
      unfold sqlFix1 sqlFix2
      rw [hid _ _ hF1]
      exact foldl_guard_skip subqueryNeedsTop
        (fun acc sub => replaceFirstStr acc sub (injectTop100 sub))
        (findSubqueries (toCodes q)) (toCodes q) hF2
    have h3 : sqlFix3 (toCodes q) = toCodes q :=
      foldl_guard_skip (fun sub => existsM selTopM sub && hasOffsetFetch sub)
        (fun acc sub => replaceFirstStr acc sub (replFirst selTopM sub))
        (findSubqueries (toCodes q)) (toCodes q) hF3
    have h4 : sqlFix4 (toCodes q) = toCodes q :=
      foldl_guard_skip
        (fun ctx => existsM selDistinctM ctx && !hasOffsetWord ctx && hasOrderByWord ctx)
        (fun acc ctx => replaceFirstStr acc ctx (replFirst selDistinctM ctx))
        (findOrderByContexts (toCodes q)) (toCodes q) hF4
    have h5 : sqlFix5 (toCodes q) = toCodes q := by
      unfold sqlFix5
      exact hid _ _ hF5
    unfold fixSQLServerSyntaxIssues
    rw [if_neg hq, h2, h3, h4, h5, ofCodes_toCodes]
  · simp [fixTopWithTiesAndOffset, hTop]

/-- Witness for C4 at a concrete clean SELECT/JOIN query: every no-match
hypothesis evaluates to true and all three fixers return it unchanged. -/
theorem C4_clean_input_fixers_identity_witness :
    (¬("SELECT u.id FROM Users u JOIN Orders o ON u.id = o.uid" = "")) ∧
    fixMalformedJoins "SELECT u.id FROM Users u JOIN Orders o ON u.id = o.uid" =
      "SELECT u.id FROM Users u JOIN Orders o ON u.id = o.uid" ∧
    fixSQLServerSyntaxIssues "SELECT u.id FROM Users u JOIN Orders o ON u.id = o.uid" =
      "SELECT u.id FROM Users u JOIN Orders o ON u.id = o.uid" ∧
    fixTopWithTiesAndOffset "SELECT u.id FROM Users u JOIN Orders o ON u.id = o.uid" =
      "SELECT u.id FROM Users u JOIN Orders o ON u.id = o.uid" :=
  ⟨by decide,
    C4_clean_input_fixers_identity "SELECT u.id FROM Users u JOIN Orders o ON u.id = o.uid"
      (by decide) (by decide) (by decide) (by decide) (by decide) (by decide) (by decide)
      (by decide) (by decide) (by decide) (by decide) (by decide) (by decide) (by decide)
      (by decide)⟩
/-! ### Derived-table scope fixer (derivedTableFixer.ts, fixDerivedTableScopeIssues)

The function collects derived tables and CTEs with their aliases, subquery
texts and match offsets, propagates table references through nested CTEs, and
then runs one global replacement loop plus five clause-scoped repair loops. -/

/-- A collected derived table or CTE. -/
structure DerivedTable where
  aliasName : List Nat
  tableReferences : List (List Nat)
  fullMatch : List Nat
  subquery : List Nat
  startPos : Nat
  endPos : Nat
deriving DecidableEq, Repr

/-- `SELECT\b`: the literal with a word boundary after it. -/
def dtSelTail (s : List Nat) : Option (List Nat × List Nat) :=
  match ciTake (toCodes "SELECT") s with
  | some (sel, r) => if wordy r.head? then none else some (sel, r)
  | none => none

/-- The lazy `[\s\S]*?` before `SELECT\b`: consume as little as possible
until the SELECT token matches: `(consumed, selectToken, rest)`. -/
def lazyUntilSelect : Nat → List Nat → Option (List Nat × List Nat × List Nat)
  | 0, _ => none
  | f + 1, s =>
    match dtSelTail s with
    | some (sel, r) => some ([], sel, r)
    | none =>
      match s with
      | [] => none
      | c :: cs =>
        match lazyUntilSelect f cs with
        | some (pre, sel, r) => some (c :: pre, sel, r)
        | none => none

/-- `\)\s+(?:AS\s+)?(\w+)`: the close of the derived-table pattern, with the
greedy optional `AS` tried first: `(consumed, alias, rest)`. -/
def dtClose (s : List Nat) : Option (List Nat × List Nat × List Nat) := do
  let (cp, r1) ← csTake (toCodes ")") s
  let (w1, r2) ← spaces1 r1
  (do
    let (asTok, q1) ← ciTake (toCodes "AS") r2
    let (w2, q2) ← spaces1 q1
    let (al, q3) ← word1 q2
    some (cp ++ w1 ++ asTok ++ w2 ++ al, al, q3)) <|>
  (do
    let (al, q1) ← word1 r2
    some (cp ++ w1 ++ al, al, q1))

/-- The lazy `[\s\S]*?` before the close: `(consumed, closeText, alias, rest)`;
a `)` whose continuation fails is consumed by the star, exactly as the lazy
regex grows past it. -/
def lazyUntilClose : Nat → List Nat → Option (List Nat × List Nat × List Nat × List Nat)
  | 0, _ => none
  | f + 1, s =>
    match dtClose s with
    | some (cl, al, r) => some ([], cl, al, r)
    | none =>
      match s with
      | [] => none
      | c :: cs =>
        match lazyUntilClose f cs with
        | some (pre, cl, al, r) => some (c :: pre, cl, al, r)
        | none => none

/-- derivedTablePattern
`/\bFROM\s+\(\s*(?:WITH\s+[\s\S]*?)?SELECT\b[\s\S]*?\)\s+(?:AS\s+)?(\w+)/gis`,
payload: the alias. -/
def derivedTableM : Matcher (List Nat) := fun prev s =>
  if wordy prev then none
  else do
    let (fr, r1) ← ciTake (toCodes "FROM") s
    let (w1, r2) ← spaces1 r1
    let (op, r3) ← csTake (toCodes "(") r2
    let (w2, r4) := spaces0 r3
    let (withPart, sel, r5) ←
      (do
        let (wt, q1) ← ciTake (toCodes "WITH") r4
        let (wsp, q2) ← spaces1 q1
        let (pre, selTok, q3) ← lazyUntilSelect (q2.length + 1) q2
        some (wt ++ wsp ++ pre, selTok, q3)) <|>
      (do
        let (selTok, q1) ← dtSelTail r4
        some (([] : List Nat), selTok, q1))
    let (mid, cl, al, r6) ← lazyUntilClose (r5.length + 1) r5
    some (fr ++ w1 ++ op ++ w2 ++ withPart ++ sel ++ mid ++ cl, al, r6)

/-- ctePattern `/\bWITH\s+(\w+)(?:\s*\([^)]*\))?\s+AS\s*\(\s*SELECT\b.*?\)/gis`,
payload: the CTE name.  The lazy `.*?\)` stops at the first `)`. -/
def cteM : Matcher (List Nat) := fun prev s =>
  if wordy prev then none
  else do
    let (wt, r1) ← ciTake (toCodes "WITH") s
    let (w1, r2) ← spaces1 r1
    let (nm, r3) ← word1 r2
    let cont := fun (colPart : List Nat) (r4 : List Nat) => do
      let (w2, r5) ← spaces1 r4
      let (asTok, r6) ← ciTake (toCodes "AS") r5
      let (w3, r7) := spaces0 r6
      let (op, r8) ← csTake (toCodes "(") r7
      let (w4, r9) := spaces0 r8
      let (sel, r10) ← dtSelTail r9
      let (mid, rr) := r10.span (fun c => c != 41)
      let (cp, r11) ← csTake (toCodes ")") rr
      some (wt ++ w1 ++ nm ++ colPart ++ w2 ++ asTok ++ w3 ++ op ++ w4 ++ sel ++ mid ++ cp,
        nm, r11)
    (do
      let (w0, q1) := spaces0 r3
      let (op, q2) ← csTake (toCodes "(") q1
      let (inner, q3) := q2.span (fun c => c != 41)
      let (cp, q4) ← csTake (toCodes ")") q3
      cont (w0 ++ op ++ inner ++ cp) q4) <|> cont [] r3

/-- `match[1].replace(/[\[\]]/g, '')`. -/
def stripBrackets (s : List Nat) : List Nat := s.filter (fun c => c != 91 && c != 93)

/-- fromPattern / joinPattern
`/\b(FROM|JOIN)\s+([^\s,(]+)(?:\s+(?:AS\s+)?(\w+))?/gi` with the keyword
supplied, payload: the raw table token (group 1). -/
def tableRefM (kw : List Nat) : Matcher (List Nat) := fun prev s =>
  if wordy prev then none
  else do
    let (k, r1) ← ciTake kw s
    let (w1, r2) ← spaces1 r1
    let (t, r3) ← many1 (fun c => !isSpaceCode c && c != 44 && c != 40) r2
    match
      (do
        let (wa, q1) ← spaces1 r3
        let (asTok, q2) ← ciTake (toCodes "AS") q1
        let (wb, q3) ← spaces1 q2
        let (al, q4) ← word1 q3
        some (wa ++ asTok ++ wb ++ al, q4)) <|>
      (do
        let (wa, q1) ← spaces1 r3
        let (al, q2) ← word1 q1
        some (wa ++ al, q2)) with
    | some (tl, r4) => some (k ++ w1 ++ t ++ tl, t, r4)
    | none => some (k ++ w1 ++ t, t, r3)

/-- Order-preserving de-duplication (the `Set` of findTableReferences). -/
def dedupGo : List (List Nat) → List (List Nat) → List (List Nat)
  | _, [] => []
  | seen, x :: xs =>
    if seen.any (fun y => y == x) then dedupGo seen xs
    else x :: dedupGo (x :: seen) xs

/-- findTableReferences: bracketless FROM targets then JOIN targets, first
occurrence kept. -/
def findTableReferences (s : List Nat) : List (List Nat) :=
  dedupGo []
    (((collectAll (tableRefM (toCodes "FROM")) s).map (fun m => stripBrackets m.2.2)) ++
      ((collectAll (tableRefM (toCodes "JOIN")) s).map (fun m => stripBrackets m.2.2)))

/-- `fullMatch.substring(fullMatch.indexOf('(') + 1)` fed to
extractBalancedSubstring (depth 1). -/
def subqueryContentOf (fm : List Nat) : List Nat :=
  match indexOfCS (toCodes "(") fm with
  | some i => extractBalancedGo 1 (fm.drop (i + 1))
  | none => extractBalancedGo 1 fm

/-- The CTE content: the balanced text after the `(` that follows the first
` AS ` of the upper-cased match (a missing ` AS ` makes the `(` search start
at the front, and a missing `(` yields the whole match). -/
def cteContentOf (fm : List Nat) : List Nat :=
  let base :=
    match indexOfCS (toCodes " AS ") (fm.map upCode) with
    | some i => i
    | none => 0
  match indexOfCS (toCodes "(") (fm.drop base) with
  | some j => extractBalancedGo 1 (fm.drop (base + j + 1))
  | none => extractBalancedGo 1 fm

/-- Both collection passes: derived tables then CTEs, with offsets. -/
def collectDerivedTables (sql : List Nat) : List DerivedTable :=
  ((collectAll derivedTableM sql).map fun m =>
    let sub := subqueryContentOf m.2.1
    { aliasName := m.2.2, tableReferences := findTableReferences sub,
      fullMatch := m.2.1, subquery := sub, startPos := m.1,
      endPos := m.1 + m.2.1.length }) ++
  ((collectAll cteM sql).map fun m =>
    let sub := cteContentOf m.2.1
    { aliasName := m.2.2, tableReferences := findTableReferences sub,
      fullMatch := m.2.1, subquery := sub, startPos := m.1,
      endPos := m.1 + m.2.1.length })

/-- One step of the nested-CTE propagation: entry `i` absorbs the references
of every other entry whose alias occurs in its subquery text, reading the
current (already partially extended) list. -/
def propagateStep (dts : List DerivedTable) (i : Nat) : List DerivedTable :=
  match dts.get? i with
  | none => dts
  | some dt =>
    let extra :=
      (dts.filter (fun o => !(o.aliasName == dt.aliasName) &&
        includesCS o.aliasName dt.subquery)).foldl
        (fun acc o => acc ++ o.tableReferences) []
    dts.set i { dt with tableReferences := dt.tableReferences ++ extra }

def propagateCtes (dts : List DerivedTable) : List DerivedTable :=
  (List.range dts.length).foldl propagateStep dts

/-- Backtracking for the trailing `\b` after the column class `[\w\[\]]+`:
shrink the greedy run until word-ness changes at its right edge. -/
def shrinkB : Nat → List Nat → List Nat → Option (List Nat × List Nat)
  | 0, _, _ => none
  | f + 1, col, rest =>
    match col.getLast? with
    | none => none
    | some a =>
      if isWordCode a != wordy rest.head? then some (col, rest)
      else shrinkB f col.dropLast (a :: rest)

/-- The constructed reference pattern `\b${table}\.([\w\[\]]+)\b` (flags gi);
the interpolated table name is matched as a literal (exact for the
word-character names the collector produces), payload: the column capture. -/
def tblColM (tbl : List Nat) : Matcher (List Nat) := fun prev s =>
  if wordy prev == wordy tbl.head? then none
  else do
    let (t, r1) ← ciTake tbl s
    let (d, r2) ← csTake (toCodes ".") r1
    let (col0, r3) ← many1 (fun c => isWordCode c || c == 91 || c == 93) r2
    let (col, r4) ← shrinkB (col0.length + 1) col0 r3
    some (t ++ d ++ col, col, r4)

/-- The constructed replacement pattern `\b${table}\.${column}\b` (flag g
only: case-sensitive), a literal between word boundaries. -/
def litWordM (lit repl : List Nat) : Matcher (List Nat) := fun prev s =>
  if wordy prev == wordy lit.head? then none
  else
    match csTake lit s with
    | some (t, r) =>
      if wordy lit.getLast? == wordy r.head? then none
      else some (t, repl, r)
    | none => none

/-- The inner while of the main loop, for one collected table name: each
reference found after the derived table's end triggers a warning and a
global case-sensitive rewrite of the whole accumulated query. -/
def mainLoopTable (aliasName ctx : List Nat) (acc : List Nat × List (List Nat))
    (tbl : List Nat) : List Nat × List (List Nat) :=
  (collectAll (tblColM tbl) ctx).foldl
    (fun st m =>
      let col := m.2.2
      (replAll (litWordM (tbl ++ 46 :: col) (aliasName ++ 46 :: col)) st.1,
        st.2 ++ [toCodes "Fixed table reference: " ++ m.2.1 ++ toCodes " -> " ++
          aliasName ++ 46 :: col]))
    acc

/-- The main replacement loop over one derived table: skipped when the alias
or reference list is empty; the scan context is the original query after the
table's end offset. -/
def mainLoopDt (sql : List Nat) (acc : List Nat × List (List Nat)) (dt : DerivedTable) :
    List Nat × List (List Nat) :=
  if dt.aliasName.isEmpty || dt.tableReferences.isEmpty then acc
  else dt.tableReferences.foldl (mainLoopTable dt.aliasName (sql.drop dt.endPos)) acc

/-- First regex match at or after `pos` (the `exec` resume semantics: the
word-boundary context at the resume point is the actual preceding
character). -/
def firstMatchFrom (m : Matcher γ) : Nat → Option Nat → Nat → List Nat → Option (Nat × List Nat × γ)
  | 0, _, _, _ => none
  | _ + 1, _, _, [] => none
  | f + 1, prev, i, c :: cs =>
    match m prev (c :: cs) with
    | some (mt, g, _) => some (i, mt, g)
    | none => firstMatchFrom m f (some c) (i + 1) cs

/-- A `while ((m = re.exec(q)) !== null)` loop whose body may rewrite the
first occurrence of the matched clause in the subject; the regex resumes
after the match position measured on the pre-rewrite subject.  The fuel only
bounds the embedding. -/
def execFixLoop (m : Matcher Unit) (handle : List Nat → List Nat × List (List Nat)) :
    Nat → Nat → List Nat × List (List Nat) → List Nat × List (List Nat)
  | 0, _, st => st
  | f + 1, pos, (fq, ws) =>
    match firstMatchFrom m (fq.length + 1) (lastOpt none (fq.take pos)) pos (fq.drop pos) with
    | none => (fq, ws)
    | some (idx, clause, _) =>
      let hr := handle clause
      let fq' := if hr.1 = clause then fq else replaceFirstStr fq clause hr.1
      execFixLoop m handle f (idx + clause.length) (fq', ws ++ hr.2)

/-- The clause-terminator alternation `(?:$|WHERE|HAVING|ORDER|UNION|;)` of
both GROUP BY patterns, `$` first. -/
def gbTermAt (s : List Nat) : Option (List Nat × List Nat) :=
  match s with
  | [] => some ([], [])
  | _ =>
    ciTake (toCodes "WHERE") s <|> ciTake (toCodes "HAVING") s <|>
      ciTake (toCodes "ORDER") s <|> ciTake (toCodes "UNION") s <|>
      csTake (toCodes ";") s

/-- A greedy capture over a combined stretch, backtracking against its
continuation: the continuation is explored in full at the longest prefix (of
length at least `m`) before one character is handed back, matching the LIFO
backtracking order of the regex engine. -/
def gbShrinkScan (seqFn : List Nat → Option (List Nat × List Nat)) :
    Nat → Nat → List Nat → List Nat → Option (List Nat × List Nat)
  | 0, _, _, _ => none
  | f + 1, m, col, after =>
    if col.length < m then none
    else
      match seqFn after with
      | some (t, r) => some (col ++ t, r)
      | none =>
        match col.getLast? with
        | some a => gbShrinkScan seqFn f m col.dropLast (a :: after)
        | none => none

/-- The lazy star and terminator
`(?:,\s*([^,]+))*?(?:$|WHERE|HAVING|ORDER|UNION|;)` of groupByPattern: zero
repetitions (the terminator) is preferred; otherwise a repetition consumes
the comma and the greedy capture over the combined `\s*([^,]+)` stretch
backtracks against the recursive continuation. -/
def gbSeq : Nat → List Nat → Option (List Nat × List Nat)
  | 0, _ => none
  | f + 1, s =>
    match gbTermAt s with
    | some (t, r) => some (t, r)
    | none =>
      match s with
      | 44 :: rest =>
        let sp := rest.takeWhile isSpaceCode
        let r1 := rest.dropWhile isSpaceCode
        let run := r1.takeWhile (fun c => c != 44)
        let r2 := r1.dropWhile (fun c => c != 44)
        let C := sp ++ run
        match gbShrinkScan (gbSeq f) (C.length + 1) 1 C r2 with
        | some (inner, r) => some (44 :: inner, r)
        | none => none
      | _ => none

/-- The body `\s+([^,]+)(?:,\s*([^,]+))*?TERM` of groupByPattern: at least
one leading space, then the greedy first capture over the combined
space-and-run stretch (at least two characters in total), backtracking
against the lazy star and terminator. -/
def gbBody (s : List Nat) : Option (List Nat × List Nat) :=
  let sp := s.takeWhile isSpaceCode
  let r1 := s.dropWhile isSpaceCode
  let run := r1.takeWhile (fun c => c != 44)
  let r2 := r1.dropWhile (fun c => c != 44)
  if sp.isEmpty then none
  else
    let C := sp ++ run
    gbShrinkScan (gbSeq (C.length + r2.length + 1)) (C.length + 1) 2 C r2

/-- groupByPattern
`/GROUP\s+BY\s+([^,]+)(?:,\s*([^,]+))*?(?:$|WHERE|HAVING|ORDER|UNION|;)/gis`. -/
def groupByM : Matcher Unit := fun _ s => do
  let (g, r1) ← ciTake (toCodes "GROUP") s
  let (w1, r2) ← spaces1 r1
  let (b, r3) ← ciTake (toCodes "BY") r2
  let (body, r4) ← gbBody r3
  some (g ++ w1 ++ b ++ body, (), r4)

/-- partitionByPattern `/PARTITION\s+BY\s+([^)]+)/gi`: the match extent is
the maximal space-then-non-`)` stretch (one space may serve as the
capture when nothing else follows). -/
def partitionByM : Matcher Unit := fun _ s => do
  let (p, r1) ← ciTake (toCodes "PARTITION") s
  let (w1, r2) ← spaces1 r1
  let (b, r3) ← ciTake (toCodes "BY") r2
  let sp := r3.takeWhile isSpaceCode
  let r4 := r3.dropWhile isSpaceCode
  let run := r4.takeWhile (fun c => c != 41)
  let r5 := r4.dropWhile (fun c => c != 41)
  if sp.isEmpty || (run.isEmpty && sp.length < 2) then none
  else some (p ++ w1 ++ b ++ sp ++ run, (), r5)

/-- The per-table rewrite applied to one matched clause: scan the clause for
`table.column` references and rewrite the first occurrence of each hit
(subject to `guard`) in the evolving clause, collecting warnings with the
given label. -/
def clauseRewrite (label : String) (aliasName : List Nat) (tables : List (List Nat))
    (guard : List Nat → Bool) (clause : List Nat) : List Nat × List (List Nat) :=
  tables.foldl
    (fun st tbl =>
      (collectAll (tblColM tbl) clause).foldl
        (fun st m =>
          let mt := m.2.1
          let col := m.2.2
          if guard mt then
            (replaceFirstStr st.1 mt (aliasName ++ 46 :: col),
              st.2 ++ [toCodes label ++ mt ++ toCodes " -> " ++ aliasName ++ 46 :: col])
          else st)
        st)
    (clause, [])

/-- One optional character (the greedy `\[?` / `\]?`). -/
def optChar (code : Nat) (s : List Nat) : List Nat × List Nat :=
  match s with
  | c :: cs => if c = code then ([c], cs) else ([], s)
  | [] => ([], s)

/-- One `\[?(\w+)\]?\.\[?(\w+)\]?` reference of enhancedGroupByPattern:
`((text, table, column), rest)`. -/
def egbPair (s : List Nat) : Option ((List Nat × List Nat × List Nat) × List Nat) := do
  let (ob, r1) := optChar 91 s
  let (t, r2) ← word1 r1
  let (cb, r3) := optChar 93 r2
  let (d, r4) ← csTake (toCodes ".") r3
  let (ob2, r5) := optChar 91 r4
  let (c, r6) ← word1 r5
  let (cb2, r7) := optChar 93 r6
  some ((ob ++ t ++ cb ++ d ++ ob2 ++ c ++ cb2, t, c), r7)

/-- The pair list of enhancedGroupByPattern with its lazy comma star and the
shared terminator. -/
def egbBody : Nat → List Nat → Option (List Nat × List Nat)
  | 0, _ => none
  | f + 1, s => do
    let (pr, r1) ← egbPair s
    match gbTermAt r1 with
    | some (t, r) => some (pr.1 ++ t, r)
    | none =>
      match csTake (toCodes ",") r1 with
      | some (cm, r2) =>
        let (w, r3) := spaces0 r2
        match egbBody f r3 with
        | some (rest, r4) => some (pr.1 ++ cm ++ w ++ rest, r4)
        | none => none
      | none => none

/-- enhancedGroupByPattern
`/GROUP\s+BY\s+(?:\[?(\w+)\]?\.\[?(\w+)\]?)(?:,\s*(?:\[?(\w+)\]?\.\[?(\w+)\]?))*?(?:$|WHERE|HAVING|ORDER|UNION|;)/gis`. -/
def enhancedGroupByM : Matcher Unit := fun _ s => do
  let (g, r1) ← ciTake (toCodes "GROUP") s
  let (w1, r2) ← spaces1 r1
  let (b, r3) ← ciTake (toCodes "BY") r2
  let (w2, r4) ← spaces1 r3
  let (body, r5) ← egbBody (r4.length + 1) r4
  some (g ++ w1 ++ b ++ w2 ++ body, (), r5)

/-- A pair matcher for `clause.match(/\[?(\w+)\]?\.\[?(\w+)\]?/g)`, payload
`(table, column)`. -/
def egbPairM : Matcher (List Nat × List Nat) := fun _ s =>
  match egbPair s with
  | some ((txt, t, c), r) => some (txt, (t, c), r)
  | none => none

/-- The replacement regex built from a matched reference with only its
brackets escaped (flags gi): letters compare case-insensitively and the
unescaped `.` is the regex wildcard (anything but a line break). -/
def dotWildDrop : List Nat → List Nat → Option (List Nat)
  | [], s => some s
  | _ :: _, [] => none
  | p :: ps, c :: cs =>
    if p = 46 then (if c = 10 ∨ c = 13 then none else dotWildDrop ps cs)
    else if ciEq p c then dotWildDrop ps cs else none

def dotWildM (pat repl : List Nat) : Matcher (List Nat) := fun _ s =>
  match dotWildDrop pat s with
  | some r => if pat.isEmpty then none else some (s.take pat.length, repl, r)
  | none => none

/-- The enhanced GROUP BY handler: every bracketed-or-plain pair whose table
name is listed by some derived table is globally rewritten inside the clause
(bracket style decides the replacement shape). -/
def enhancedHandle (dts : List DerivedTable) (clause : List Nat) :
    List Nat × List (List Nat) :=
  (collectAll egbPairM clause).foldl
    (fun st m =>
      let ref := m.2.1
      let t := m.2.2.1
      let c := m.2.2.2
      dts.foldl
        (fun st dt =>
          if dt.tableReferences.any (fun x => x == t) then
            let corrected :=
              if includesCS (91 :: t ++ [93]) ref || includesCS (91 :: c ++ [93]) ref then
                dt.aliasName ++ 46 :: 91 :: c ++ [93]
              else dt.aliasName ++ 46 :: c
            (replAll (dotWildM ref corrected) st.1,
              st.2 ++ [toCodes "Fixed dynamic table reference in GROUP BY: " ++ ref ++
                toCodes " -> " ++ corrected])
          else st)
        st)
    (clause, [])

/-- The terminator of whereClausePattern:
`(?:GROUP\s+BY|ORDER\s+BY|HAVING|;|\))`. -/
def whereTermAt (s : List Nat) : Option (List Nat × List Nat) :=
  (do
    let (g, r1) ← ciTake (toCodes "GROUP") s
    let (w, r2) ← spaces1 r1
    let (b, r3) ← ciTake (toCodes "BY") r2
    some (g ++ w ++ b, r3)) <|>
  (do
    let (o, r1) ← ciTake (toCodes "ORDER") s
    let (w, r2) ← spaces1 r1
    let (b, r3) ← ciTake (toCodes "BY") r2
    some (o ++ w ++ b, r3)) <|>
  ciTake (toCodes "HAVING") s <|> csTake (toCodes ";") s <|> csTake (toCodes ")") s

/-- A lazy `(allowed)+?` body followed by a terminator: grow one character at
a time, trying the terminator after each. -/
def lazyBody (allowed : Nat → Bool) (term : List Nat → Option (List Nat × List Nat)) :
    Nat → List Nat → Option (List Nat × List Nat × List Nat)
  | 0, _ => none
  | f + 1, s =>
    match s with
    | [] => none
    | c :: cs =>
      if allowed c then
        match term cs with
        | some (t, r) => some ([c], t, r)
        | none =>
          match lazyBody allowed term f cs with
          | some (b, t, r) => some (c :: b, t, r)
          | none => none
      else none

/-- whereClausePattern `/WHERE\s+([^;)]+?)(?:GROUP\s+BY|ORDER\s+BY|HAVING|;|\))/gis`
(no word boundary in the source pattern).  When the lazy body finds no
terminator, the greedy `\s+` hands its last space over as the one-character
body, which only helps when the terminator sits right after the spaces. -/
def whereM : Matcher Unit := fun _ s => do
  let (wh, r1) ← ciTake (toCodes "WHERE") s
  let (sp, r2) ← spaces1 r1
  match lazyBody (fun c => c != 59 && c != 41) whereTermAt (r2.length + 1) r2 with
  | some (b, t, r) => some (wh ++ sp ++ b ++ t, (), r)
  | none =>
    if 2 ≤ sp.length then
      match whereTermAt r2 with
      | some (t, r) => some (wh ++ sp ++ t, (), r)
      | none => none
    else none

/-- The terminator of joinOnPattern. -/
def joinTermAt (s : List Nat) : Option (List Nat × List Nat) :=
  ciTake (toCodes "WHERE") s <|>
  (do
    let (g, r1) ← ciTake (toCodes "GROUP") s
    let (w, r2) ← spaces1 r1
    let (b, r3) ← ciTake (toCodes "BY") r2
    some (g ++ w ++ b, r3)) <|>
  (do
    let (o, r1) ← ciTake (toCodes "ORDER") s
    let (w, r2) ← spaces1 r1
    let (b, r3) ← ciTake (toCodes "BY") r2
    some (o ++ w ++ b, r3)) <|>
  ciTake (toCodes "LEFT") s <|> ciTake (toCodes "RIGHT") s <|>
    ciTake (toCodes "INNER") s <|> ciTake (toCodes "OUTER") s <|>
    ciTake (toCodes "JOIN") s <|> csTake (toCodes ";") s <|> csTake (toCodes ")") s

/-- The tail `\s+ON\s+([^)]+?)TERM` of joinOnPattern, after the optional
alias part. -/
def joinOnTail (pre : List Nat) (r4 : List Nat) : Option (List Nat × Unit × List Nat) := do
  let (w2, r5) ← spaces1 r4
  let (onTok, r6) ← ciTake (toCodes "ON") r5
  let (sp, r7) ← spaces1 r6
  match lazyBody (fun c => c != 41) joinTermAt (r7.length + 1) r7 with
  | some (b, t, r) => some (pre ++ w2 ++ onTok ++ sp ++ b ++ t, (), r)
  | none =>
    if 2 ≤ sp.length then
      match joinTermAt r7 with
      | some (t, r) => some (pre ++ w2 ++ onTok ++ sp ++ t, (), r)
      | none => none
    else none

/-- joinOnPattern
`/\bJOIN\s+[^\s]+(?:\s+(?:AS\s+)?(\w+))?\s+ON\s+([^)]+?)(?:WHERE|GROUP\s+BY|ORDER\s+BY|LEFT|RIGHT|INNER|OUTER|JOIN|;|\))/gis`;
the optional alias alternatives are tried greedily with the whole tail. -/
def joinOnM : Matcher Unit := fun prev s =>
  if wordy prev then none
  else do
    let (j, r1) ← ciTake (toCodes "JOIN") s
    let (w1, r2) ← spaces1 r1
    let (tbl, r3) ← many1 (fun c => !isSpaceCode c) r2
    (do
      let (wa, q1) ← spaces1 r3
      let (asT, q2) ← ciTake (toCodes "AS") q1
      let (wb, q3) ← spaces1 q2
      let (al, q4) ← word1 q3
      joinOnTail (j ++ w1 ++ tbl ++ wa ++ asT ++ wb ++ al) q4) <|>
    (do
      let (wa, q1) ← spaces1 r3
      let (al, q2) ← word1 q1
      joinOnTail (j ++ w1 ++ tbl ++ wa ++ al) q2) <|>
    joinOnTail (j ++ w1 ++ tbl) r3

/-- `sqlQuery.indexOf(text) > endPos` with the JS `-1` for a missing
occurrence. -/
def occursAfter (sql text : List Nat) (endPos : Nat) : Bool :=
  match indexOfCS text sql with
  | some i => decide (endPos < i)
  | none => false

/-- The result record of fixDerivedTableScopeIssues. -/
structure ScopeFixResult where
  fixedQuery : String
  warnings : List String
deriving DecidableEq, Repr

def fixDerivedTableScopeIssues (sqlQuery : String) : ScopeFixResult :=
  if sqlQuery = "" then { fixedQuery := sqlQuery, warnings := [] }
  else
    let sql := toCodes sqlQuery
    let dts := propagateCtes (collectDerivedTables sql)
    let st1 := dts.foldl (mainLoopDt sql) (sql, [])
    let st2 := dts.foldl
      (fun st dt =>
        execFixLoop groupByM
          (clauseRewrite "Fixed table reference in GROUP BY: " dt.aliasName
            dt.tableReferences (fun _ => true))
          ((st.1.length + 1) * 8) 0 st) st1
    let st3 := dts.foldl
      (fun st dt =>
        execFixLoop partitionByM
          (clauseRewrite "Fixed table reference in PARTITION BY: " dt.aliasName
            dt.tableReferences (fun _ => true))
          ((st.1.length + 1) * 8) 0 st) st2
    let st4 := execFixLoop enhancedGroupByM (enhancedHandle dts)
      ((st3.1.length + 1) * 8) 0 st3
    let st5 := dts.foldl
      (fun st dt =>
        execFixLoop whereM
          (clauseRewrite "Fixed table reference in WHERE clause: " dt.aliasName
            dt.tableReferences (fun mt => occursAfter sql mt dt.endPos))
          ((st.1.length + 1) * 8) 0 st) st4
    let st6 := dts.foldl
      (fun st dt =>
        execFixLoop joinOnM
          (fun clause =>
            clauseRewrite "Fixed table reference in JOIN condition: " dt.aliasName
              dt.tableReferences (fun _ => occursAfter sql clause dt.endPos) clause)
          ((st.1.length + 1) * 8) 0 st) st5
    { fixedQuery := ofCodes st6.1, warnings := st6.2.map ofCodes }
/-! ### C1: the derived-table scope-fix scenario -/

/-- The scope-fix scenario input of the specification: a derived table over
`Orders` aliased `RegionData`, with an outer WHERE clause that still
references `Orders.ShipRegion`. -/
def scopeQuery : String :=
  "SELECT RegionData.Region FROM (SELECT Orders.ShipRegion AS Region FROM Orders) AS RegionData WHERE Orders.ShipRegion = 'WA'"

/-- What fixDerivedTableScopeIssues actually produces on the scenario. -/
def scopeQueryFixed : String :=
  "SELECT RegionData.Region FROM (SELECT RegionData.ShipRegion AS Region FROM Orders) AS RegionData WHERE RegionData.ShipRegion = 'WA'"

set_option maxRecDepth 10000 in
theorem scope_scenario_eval :
    fixDerivedTableScopeIssues scopeQuery =
      { fixedQuery := scopeQueryFixed,
        warnings := ["Fixed table reference: Orders.ShipRegion -> RegionData.ShipRegion"] } := by
  decide

set_option maxRecDepth 10000 in
/-- C1, counterexample: the rewrite is NOT restricted to occurrences after
the derived table's end offset.  On the scenario input the collected derived
table ends at offset 92, the only `Orders.ShipRegion` before that offset is
the one inside the subquery — and the output has rewritten it to
`RegionData.ShipRegion` as well (no `Orders.ShipRegion` survives anywhere),
because the main loop replaces via a whole-query global regex. -/
theorem C1_scope_fix_counterexample :
    (fixDerivedTableScopeIssues scopeQuery).fixedQuery = scopeQueryFixed ∧
    (propagateCtes (collectDerivedTables (toCodes scopeQuery))).map DerivedTable.endPos =
      [92] ∧
    includesCS (toCodes "Orders.ShipRegion") ((toCodes scopeQuery).take 92) = true ∧
    includesCS (toCodes "(SELECT RegionData.ShipRegion AS Region FROM Orders)")
      (toCodes scopeQueryFixed) = true ∧
    includesCS (toCodes "Orders.ShipRegion") (toCodes scopeQueryFixed) = false :=
  ⟨congrArg ScopeFixResult.fixedQuery scope_scenario_eval, by decide, by decide,
    by decide, by decide⟩

set_option maxRecDepth 10000 in
/-- C1 (amended): on the scenario input the outer WHERE reference is indeed
rewritten to `RegionData.ShipRegion = 'WA'` with the expected warning, but
the rewrite of `table.column` to `alias.column` is applied globally to every
word-bounded occurrence in the query — including the one inside the derived
table's own subquery, before its end offset — rather than only to
occurrences after the derived table's definition. -/
theorem C1_scope_fix_global_rewrite :
    fixDerivedTableScopeIssues scopeQuery =
      { fixedQuery := scopeQueryFixed,
        warnings := ["Fixed table reference: Orders.ShipRegion -> RegionData.ShipRegion"] } ∧
    includesCS (toCodes "WHERE RegionData.ShipRegion = 'WA'") (toCodes scopeQueryFixed) = true ∧
    includesCS (toCodes "FROM (SELECT RegionData.ShipRegion AS Region FROM Orders)")
      (toCodes scopeQueryFixed) = true :=
  ⟨scope_scenario_eval, by decide, by decide⟩
/-! ### Query cleaning and the orchestrated validation pipeline

cleanSQLQuery, fixOrderByBeforeUnion, fixWindowFunctionGroupBy and the
validateAndCleanQuery / validateAndFixSQLQuery / validateAndFixDerivedTableIssues
wrappers, composed by AIService.verifySQLQuery. -/

/-- `"?'?sql'?"?` with every quote optional and greedy. -/
def sqlTokenAt (s : List Nat) : Option (List Nat × List Nat) := do
  let (q1, r1) := optChar 34 s
  let (q2, r2) := optChar 39 r1
  let (t, r3) ← ciTake (toCodes "sql") r2
  let (q3, r4) := optChar 39 r3
  let (q4, r5) := optChar 34 r4
  some (q1 ++ q2 ++ t ++ q3 ++ q4, r5)

/-- The markdown-fence pattern ``` `\s*(?:"?'?sql'?"?)?\s*|\s*``` ``` (gi),
replaced by the empty string. -/
def mdFenceM : Matcher (List Nat) := fun _ s =>
  (do
    let (bt, r1) ← csTake (toCodes "```") s
    let (w1, r2) := spaces0 r1
    let (tok, r3) :=
      match sqlTokenAt r2 with
      | some (t, r) => (t, r)
      | none => (([] : List Nat), r2)
    let (w2, r4) := spaces0 r3
    some (bt ++ w1 ++ tok ++ w2, ([] : List Nat), r4)) <|>
  (do
    let (w, r1) := spaces0 s
    let (bt, r2) ← csTake (toCodes "```") r1
    some (w ++ bt, ([] : List Nat), r2))

/-- The anchored `/^(?:"?'?sql'?"?\s*:?\s*)/i` strip. -/
def stripLeadingSqlTag (s : List Nat) : List Nat :=
  match (do
    let (_, r1) ← sqlTokenAt s
    let (_, r2) := spaces0 r1
    let (_, r3) := optChar 58 r2
    let (_, r4) := spaces0 r3
    some r4) with
  | some r => r
  | none => s

/-- `.replace(/\\n/g, '\n')`: a literal backslash-n becomes a newline. -/
def convertEscapedNewlines : List Nat → List Nat
  | 92 :: 110 :: rest => 10 :: convertEscapedNewlines rest
  | c :: rest => c :: convertEscapedNewlines rest
  | [] => []

/-- The lookahead `(?=\n\s*Expected Output:|$)` (first alternative). -/
def expectedOutputAt (s : List Nat) : Bool :=
  match s with
  | 10 :: r => startsWithCI (toCodes "Expected Output:") (r.dropWhile isSpaceCode)
  | _ => false

/-- The lazy `[\s\S]*?` capture tail, stopping at the lookahead or the end. -/
def lazyToExpected : Nat → List Nat → List Nat
  | 0, _ => []
  | f + 1, s =>
    match s with
    | [] => []
    | c :: cs => if expectedOutputAt (c :: cs) then [] else c :: lazyToExpected f cs

/-- `cleaned.match(/SQL Query:\s*(SELECT[\s\S]*?)(?=\n\s*Expected Output:|$)/i)`:
the captured group of the first match, if any. -/
def sqlQueryTagFrom : List Nat → Option (List Nat)
  | [] => none
  | c :: cs =>
    match (do
      let r1 ← ciDrop (toCodes "SQL Query:") (c :: cs)
      let (sel, r3) ← ciTake (toCodes "SELECT") (r1.dropWhile isSpaceCode)
      some (sel ++ lazyToExpected (r3.length + 1) r3)) with
    | some cap => some cap
    | none => sqlQueryTagFrom cs

/-- Split on newlines (code 10), keeping empty segments. -/
def splitLines : List Nat → List (List Nat)
  | [] => [[]]
  | c :: cs =>
    if c = 10 then [] :: splitLines cs
    else
      match splitLines cs with
      | h :: t => (c :: h) :: t
      | [] => [[c]]

def joinNl : List (List Nat) → List Nat
  | [] => []
  | [l] => l
  | l :: ls => l ++ 10 :: joinNl ls

/-- The SQL-keyword line test
`/\b(SELECT|INSERT|UPDATE|DELETE|WITH|FROM|WHERE|JOIN|GROUP|ORDER|HAVING|UNION|EXCEPT|INTERSECT)\b/i`. -/
def sqlKeywordLineTest : Option Nat → List Nat → Bool
  | _, [] => false
  | prev, c :: cs =>
    (!wordy prev &&
      (["SELECT", "INSERT", "UPDATE", "DELETE", "WITH", "FROM", "WHERE", "JOIN",
        "GROUP", "ORDER", "HAVING", "UNION", "EXCEPT", "INTERSECT"].any fun k =>
        match ciDrop (toCodes k) (c :: cs) with
        | some r => !wordy r.head?
        | none => false)) ||
    sqlKeywordLineTest (some c) cs

/-- The enhanced SQL line-detection loop: skip blank lines before content,
keep comment lines, keyword lines, and any non-blank line once a SELECT was
seen or collection has started. -/
def cleanLinesGo : List (List Nat) → List (List Nat) → Bool → List (List Nat) × Bool
  | [], acc, found => (acc, found)
  | l :: ls, acc, found =>
    let t := trimStr l
    if t.isEmpty && acc.isEmpty then cleanLinesGo ls acc found
    else
      let found' := found || includesCS (toCodes "SELECT") (t.map upCode)
      let keep := startsWithCS (toCodes "--") t || sqlKeywordLineTest none t ||
        (found' && !t.isEmpty) || (!acc.isEmpty && !t.isEmpty)
      cleanLinesGo ls (if keep then acc ++ [l] else acc) found'

/-- `[ \t]+` collapsed to a single space. -/
def spaceTabRunM : Matcher (List Nat) := fun _ s =>
  match many1 (fun c => c == 32 || c == 9) s with
  | some (run, r) => some (run, [32], r)
  | none => none

/-- Split a whitespace run at its last newline. -/
def lastNlSplit : List Nat → Option (List Nat × List Nat)
  | [] => none
  | c :: cs =>
    match lastNlSplit cs with
    | some (a, b) => some (c :: a, b)
    | none => if c = 10 then some ([], cs) else none

/-- `/\n\s*\n/g` replaced by `\n`: the greedy `\s*` backtracks to the last
newline of the whitespace run. -/
def blankLineM : Matcher (List Nat) := fun _ s =>
  match s with
  | 10 :: rest =>
    let run := rest.takeWhile isSpaceCode
    let r2 := rest.dropWhile isSpaceCode
    match lastNlSplit run with
    | some (w1, w2) => some (10 :: w1 ++ [10], [10], w2 ++ r2)
    | none => none
  | _ => none

def endsWithSemicolon (s : List Nat) : Bool := s.getLast? == some 59

def cleanSQLQuery (sqlQuery : String) : String :=
  if sqlQuery = "" then ""
  else
    let cleaned := trimStr (convertEscapedNewlines
      ((stripLeadingSqlTag (replAll mdFenceM (toCodes sqlQuery))).filter (· != 96)))
    match sqlQueryTagFrom cleaned with
    | some cap =>
      let r := trimStr cap
      ofCodes (if endsWithSemicolon r then r else r ++ [59])
    | none =>
      let lg := cleanLinesGo (splitLines cleaned) [] false
      if !lg.1.isEmpty && lg.2 then
        let j := trimStr (joinNl lg.1)
        let r := replAll blankLineM (replAll spaceTabRunM j)
        ofCodes (if endsWithSemicolon r then r else r ++ [59])
      else ""

/-- fixAggregateCalculations only logs a warning when its nested-aggregation
pattern tests true and returns the query unchanged. -/
def fixAggregateCalculations (query : String) : String := query

/-- First half of the inline JOIN pattern of validateAndCleanQuery,
`JOIN\s+(dbo\.)?\[([^\]]+\s+\w+\s+ON\s+\w+)\]` with the bracket content split
from the right: `((consumed, schema, table, alias, otherAlias), rest)`. -/
def inlineJoinSplit (content : List Nat) : Option (List Nat × List Nat × List Nat) := do
  let rev := content.reverse
  let (oaRev, q1) ← many1 isWordCode rev
  let (_, q2) ← many1 isSpaceCode q1
  let q3 ← ciDrop (toCodes "NO") q2
  let (_, q4) ← many1 isSpaceCode q3
  let (alRev, q5) ← many1 isWordCode q4
  let (_, q6) ← many1 isSpaceCode q5
  if q6.isEmpty then none
  else some (q6.reverse, alRev.reverse, oaRev.reverse)

/-- Second half, `\.(\w+)\s*=\s*(\w+)\.(\w+)`:
`((consumed, col1, prefix2, col2), rest)` (shared shape with p2Tail). -/
def inlineJoinM : Matcher (List Nat) := fun _ s => do
  let (j, r1) ← ciTake (toCodes "JOIN") s
  let (w1, r2) ← spaces1 r1
  dboOptThen r2 fun db r3 => do
    let (ob, r4) ← csTake (toCodes "[") r3
    let (content, r5) ← many1 notRb r4
    let (cb, r6) ← csTake (toCodes "]") r5
    let (tbl, al, oa) ← inlineJoinSplit content
    let ((tailtxt, c1, px2, c2), r7) ← p2Tail r6
    some (j ++ w1 ++ db ++ ob ++ content ++ cb ++ tailtxt,
      toCodes "JOIN " ++ db ++ 91 :: tbl ++ toCodes "] " ++ al ++ toCodes " ON " ++ oa ++
        46 :: c1 ++ toCodes " = " ++ px2 ++ 46 :: c2,
      r7)

/-- `\b(UNION(?:\s+ALL)?)\b` (the split separator, captured). -/
def unionSepAt (prev : Option Nat) (s : List Nat) : Option (List Nat × List Nat) :=
  if wordy prev then none
  else do
    let (u, r1) ← ciTake (toCodes "UNION") s
    match (do
      let (w, q1) ← spaces1 r1
      let (a, q2) ← ciTake (toCodes "ALL") q1
      if wordy q2.head? then none else some (u ++ w ++ a, q2)) with
    | some res => some res
    | none => if wordy r1.head? then none else some (u, r1)

/-- `sqlQuery.split(/\b(UNION(?:\s+ALL)?)\b/gi)`: with a capturing group the
separators are interleaved into the result. -/
def splitUnionGo : Nat → Option Nat → List Nat → List Nat → List (List Nat)
  | 0, _, acc, s => [acc ++ s]
  | f + 1, prev, acc, s =>
    match s with
    | [] => [acc]
    | c :: cs =>
      match unionSepAt prev (c :: cs) with
      | some (sep, rest) => acc :: sep :: splitUnionGo f (lastOpt prev sep) [] rest
      | none => splitUnionGo f (some c) (acc ++ [c]) cs

/-- `/^UNION(?:\s+ALL)?$/gi.test(part.trim())`. -/
def unionKwTest (t : List Nat) : Bool :=
  match ciDrop (toCodes "UNION") t with
  | some r =>
    (match (do
      let (_, q1) ← spaces1 r
      ciDrop (toCodes "ALL") q1) with
    | some q2 => q2.isEmpty || r.isEmpty
    | none => r.isEmpty)
  | none => false

/-- The character walk that finds a top-level ORDER BY (outside parentheses
and string literals): quote toggling first, then — when not inside a string —
depth bookkeeping and the 8-character upper-cased window test. -/
def orderByScanGo : List Nat → Int → Bool → Nat → Nat → Option Nat
  | [], _, _, _, _ => none
  | c :: cs, depth, inStr, sc, j =>
    let opened := (c == 39 || c == 34) && !inStr
    let closed := inStr && c == sc
    let inStrN := if opened then true else if closed then false else inStr
    let scN := if opened then c else if closed then 0 else sc
    if inStrN then orderByScanGo cs depth inStrN scN (j + 1)
    else
      let depthN := if c = 40 then depth + 1 else if c = 41 then depth - 1 else depth
      if depthN == 0 && startsWithCS (toCodes "ORDER BY") (((c :: cs).take 8).map upCode) then
        some j
      else orderByScanGo cs depthN inStrN scN (j + 1)

def fixOrderByBeforeUnion (sqlQuery : String) : String :=
  if sqlQuery = "" then sqlQuery
  else
    let parts := splitUnionGo ((toCodes sqlQuery).length + 1) none [] (toCodes sqlQuery)
    let n := parts.length
    ofCodes (parts.enum.foldl
      (fun acc p =>
        if unionKwTest (trimStr p.2) then acc ++ p.2
        else if p.1 + 1 < n then
          match orderByScanGo p.2 0 false 0 0 with
          | some idx =>
            acc ++ trimStr (p.2.take idx) ++
              toCodes "\n-- ORDER BY clause removed (not allowed before UNION)\n"
          | none => acc ++ p.2
        else acc ++ p.2)
      [])

/-- `ORDER\s+BY` as a consuming piece. -/
def orderByTake (s : List Nat) : Option (List Nat × List Nat) := do
  let (o, r1) ← ciTake (toCodes "ORDER") s
  let (w, r2) ← spaces1 r1
  let (b, r3) ← ciTake (toCodes "BY") r2
  some (o ++ w ++ b, r3)

/-- `PERCENTILE_CONT\s*\([^)]+\)\s*WITHIN\s+GROUP\s*\(`: first third of the
percentile pattern. -/
def pctPart1 (s : List Nat) : Option (List Nat × List Nat) := do
  let (p, r1) ← ciTake (toCodes "PERCENTILE_CONT") s
  let (w1, r2) := spaces0 r1
  let (o1, r3) ← csTake (toCodes "(") r2
  let (a1, r4) ← many1 (fun c => c != 41) r3
  let (c1, r5) ← csTake (toCodes ")") r4
  let (w2, r6) := spaces0 r5
  let (wi, r7) ← ciTake (toCodes "WITHIN") r6
  let (w3, r8) ← spaces1 r7
  some (p ++ w1 ++ o1 ++ a1 ++ c1 ++ w2 ++ wi ++ w3, r8)

/-- `GROUP\s*\(\s*ORDER\s+BY[^)]+\)\s*`: second third. -/
def pctPart2 (s : List Nat) : Option (List Nat × List Nat) := do
  let (g, r1) ← ciTake (toCodes "GROUP") s
  let (w4, r2) := spaces0 r1
  let (o2, r3) ← csTake (toCodes "(") r2
  let (w5, r4) := spaces0 r3
  let (ob, r5) ← orderByTake r4
  let (a2, r6) ← many1 (fun c => c != 41) r5
  let (c2, r7) ← csTake (toCodes ")") r6
  let (w6, r8) := spaces0 r7
  some (g ++ w4 ++ o2 ++ w5 ++ ob ++ a2 ++ c2 ++ w6, r8)

/-- `OVER\s*\([^)]+\)`: last third. -/
def pctPart3 (s : List Nat) : Option (List Nat × List Nat) := do
  let (ov, r1) ← ciTake (toCodes "OVER") s
  let (w7, r2) := spaces0 r1
  let (o3, r3) ← csTake (toCodes "(") r2
  let (a3, r4) ← many1 (fun c => c != 41) r3
  let (c3, r5) ← csTake (toCodes ")") r4
  some (ov ++ w7 ++ o3 ++ a3 ++ c3, r5)

/-- percentilePattern
`/PERCENTILE_CONT\s*\([^)]+\)\s*WITHIN\s+GROUP\s*\(\s*ORDER\s+BY[^)]+\)\s*OVER\s*\([^)]+\)/gis`. -/
def percentileM : Matcher Unit := fun _ s => do
  let (p1, r1) ← pctPart1 s
  let (p2, r2) ← pctPart2 r1
  let (p3, r3) ← pctPart3 r2
  some (p1 ++ p2 ++ p3, (), r3)

def pctReplacement : List Nat :=
  toCodes "-- PERCENTILE_CONT replaced due to GROUP BY constraints\n    AVG(CAST(DATEDIFF(DAY, SOH.[OrderDate], SOH.[ShipDate]) AS FLOAT))"

/-- The lenient line-based PERCENTILE_CONT replacement at one index. -/
def pctFixAt (ls : List (List Nat)) (i : Nat) : List (List Nat) :=
  match ls.get? i with
  | none => ls
  | some l =>
    let t := trimStr l
    if includesCS (toCodes "PERCENTILE_CONT") (t.map upCode) &&
        !startsWithCS (toCodes "--") t then
      let ls1 := ls.set i (toCodes " -- PERCENTILE_CONT replaced due to GROUP BY constraints\n    AVG(CAST(DATEDIFF(DAY, SOH.[OrderDate], SOH.[ShipDate]) AS FLOAT)) AS [MedianFulfillmentDays],")
      match ls1.get? (i + 1) with
      | some nl =>
        if startsWithCS (toCodes "OVER") ((trimStr nl).map upCode) then
          ls1.set (i + 1) (toCodes " -- OVER clause removed")
        else ls1
      | none => ls1
    else ls

def fixWindowFunctionGroupBy (sqlQuery : String) : String :=
  if sqlQuery = "" then sqlQuery
  else
    let cs := toCodes sqlQuery
    let ms := collectAll percentileM cs
    if !ms.isEmpty then
      ofCodes (ms.foldl (fun acc m => replaceFirstStr acc m.2.1 pctReplacement) cs)
    else if includesCS (toCodes "PERCENTILE_CONT") (cs.map upCode) then
      ofCodes (joinNl ((List.range (splitLines cs).length).foldl pctFixAt (splitLines cs)))
    else sqlQuery

/-- ```` /```[^`]*```/g ```` of the final sanitization step. -/
def codeBlockM : Matcher (List Nat) := fun _ s => do
  let (b1, r1) ← csTake (toCodes "```") s
  let mid := r1.takeWhile (fun c => c != 96)
  let (b2, r3) ← csTake (toCodes "```") (r1.dropWhile (fun c => c != 96))
  some (b1 ++ mid ++ b2, ([] : List Nat), r3)

/-- validateAndCleanQuery: throws `Invalid SQL query` on a falsy input, then
chains cleanSQLQuery, fixMalformedJoins, fixTopWithTiesAndOffset,
fixAggregateCalculations, the inline JOIN rewrite, fixOrderByBeforeUnion,
fixWindowFunctionGroupBy and a final backtick/code-block strip-and-trim. -/
def validateAndCleanQuery (sqlQuery : String) : Except String String :=
  if sqlQuery = "" then .error "Invalid SQL query"
  else
    let c1 := cleanSQLQuery sqlQuery
    let c2 := fixMalformedJoins c1
    let c3 := fixTopWithTiesAndOffset c2
    let c4 := fixAggregateCalculations c3
    let c5 := ofCodes (replAll inlineJoinM (toCodes c4))
    let c6 := fixOrderByBeforeUnion c5
    let c7 := fixWindowFunctionGroupBy c6
    .ok (ofCodes (trimStr (replAll codeBlockM ((toCodes c7).filter (· != 96)))))

/-- The result record shared by the two validating wrappers. -/
structure FixResult where
  isValid : Bool
  fixedQuery : String
  warnings : List String
deriving DecidableEq, Repr

/-- `FOR\s+XML` anywhere (no word boundaries). -/
def forXmlLooseFrom : List Nat → Bool
  | [] => false
  | c :: cs =>
    (match (do
      let r1 ← ciDrop (toCodes "FOR") (c :: cs)
      let (_, r2) ← spaces1 r1
      ciDrop (toCodes "XML") r2) with
    | some _ => true
    | none => false) ||
    forXmlLooseFrom cs

/-- `ORDER\s+BY` anywhere (no word boundaries). -/
def orderBySeqFrom : List Nat → Bool
  | [] => false
  | c :: cs =>
    (match orderByTake (c :: cs) with
    | some _ => true
    | none => false) ||
    orderBySeqFrom cs

def fromSearchGo : List Nat → Bool
  | [] => false
  | c :: cs =>
    (match ciDrop (toCodes "FROM") (c :: cs) with
    | some r =>
      (match r with
      | [] => false
      | _ :: r2 => orderBySeqFrom r2)
    | none => false) ||
    fromSearchGo cs

/-- `.+?FROM.+?ORDER\s+BY` from the current position: a FROM at offset at
least one, then an ORDER BY at least one character later. -/
def fromThenOrderBy : List Nat → Bool
  | [] => false
  | _ :: rest => fromSearchGo rest

/-- The first warning test of validateAndFixSQLQuery,
`/SELECT\s+(?!TOP)(?!.*OFFSET)(?!.*FOR\s+XML).+?FROM.+?ORDER\s+BY/is`.  The
greedy `\s+` backtracks against `(?!TOP)`: with two or more spaces the
lookahead is satisfied one character early (the `.*` lookaheads and the
later literals are unaffected by a one-space shift). -/
def vfWarn1From : List Nat → Bool
  | [] => false
  | c :: cs =>
    (match (do
      let r1 ← ciDrop (toCodes "SELECT") (c :: cs)
      spaces1 r1) with
    | some (sp, r2) =>
      !includesCI (toCodes "OFFSET") r2 && !forXmlLooseFrom r2 &&
        (if 2 ≤ sp.length then fromThenOrderBy (sp.drop 1 ++ r2)
          else !startsWithCI (toCodes "TOP") r2 && fromThenOrderBy r2)
    | none => false) ||
    vfWarn1From cs

/-- The second warning test, `/FETCH\s+(?!NEXT\s+\d+\s+ROWS\s+ONLY)/i`, with
the same space-backtracking against the negative lookahead. -/
def fetchGoodAt (s : List Nat) : Bool :=
  match (do
    let r1 ← ciDrop (toCodes "NEXT") s
    let (_, r2) ← spaces1 r1
    let (_, r3) ← digits1 r2
    let (_, r4) ← spaces1 r3
    let r5 ← ciDrop (toCodes "ROWS") r4
    let (_, r6) ← spaces1 r5
    ciDrop (toCodes "ONLY") r6) with
  | some _ => true
  | none => false

def fetchBadFrom : List Nat → Bool
  | [] => false
  | c :: cs =>
    (match (do
      let r1 ← ciDrop (toCodes "FETCH") (c :: cs)
      spaces1 r1) with
    | some (sp, r2) => if 2 ≤ sp.length then true else !fetchGoodAt r2
    | none => false) ||
    fetchBadFrom cs

/-- validateAndFixSQLQuery with the possibly-throwing fixer abstracted: the
source wraps `fixSQLServerSyntaxIssues` in try/catch and degrades an
exception to `{ isValid: false, fixedQuery: input, warnings: [message] }`. -/
def validateAndFixSQLQueryWith (fix : String → Except String String)
    (sqlQuery : String) : FixResult :=
  if sqlQuery = "" || ofCodes (trimStr (toCodes sqlQuery)) = "" then
    { isValid := false, fixedQuery := sqlQuery, warnings := ["Empty SQL query"] }
  else
    match fix sqlQuery with
    | .ok fq =>
      { isValid := true, fixedQuery := fq,
        warnings :=
          (if vfWarn1From (toCodes sqlQuery) then
            ["ORDER BY in subquery without TOP, OFFSET or FOR XML was fixed"] else []) ++
          (if fetchBadFrom (toCodes sqlQuery) then
            ["Incorrect FETCH syntax was fixed"] else []) }
    | .error msg =>
      { isValid := false, fixedQuery := sqlQuery,
        warnings := ["Error fixing SQL syntax: " ++ msg] }

def validateAndFixSQLQuery (sqlQuery : String) : FixResult :=
  validateAndFixSQLQueryWith (fun q => .ok (fixSQLServerSyntaxIssues q)) sqlQuery

/-- `GROUP\s+BY` anywhere (no word boundaries). -/
def groupBySeqFrom : List Nat → Bool
  | [] => false
  | c :: cs =>
    (match (do
      let r1 ← ciDrop (toCodes "GROUP") (c :: cs)
      let (_, r2) ← spaces1 r1
      ciDrop (toCodes "BY") r2) with
    | some _ => true
    | none => false) ||
    groupBySeqFrom cs

/-- `\)\s+AS\s+\w+` at some position, followed by a later GROUP BY. -/
def closeAsThenGroupBy : List Nat → Bool
  | [] => false
  | c :: cs =>
    (match (do
      let r1 ← csDrop (toCodes ")") (c :: cs)
      let (_, r2) ← spaces1 r1
      let r3 ← ciDrop (toCodes "AS") r2
      let (_, r4) ← spaces1 r3
      let (_, r5) ← word1 r4
      some r5) with
    | some r5 => groupBySeqFrom r5
    | none => false) ||
    closeAsThenGroupBy cs

/-- The wrapper's detection test
`/FROM\s+\(\s*SELECT[\s\S]*?\)\s+AS\s+(\w+)[\s\S]*?GROUP\s+BY/i`. -/
def derivedIssueFrom : List Nat → Bool
  | [] => false
  | c :: cs =>
    (match (do
      let r1 ← ciDrop (toCodes "FROM") (c :: cs)
      let (_, r2) ← spaces1 r1
      let r3 ← csDrop (toCodes "(") r2
      ciDrop (toCodes "SELECT") (r3.dropWhile isSpaceCode)) with
    | some r5 => closeAsThenGroupBy r5
    | none => false) ||
    derivedIssueFrom cs

/-- validateAndFixDerivedTableIssues with the possibly-throwing fixer
abstracted; on an exception the pre-detection warning is discarded and the
original query is returned with `isValid = false`. -/
def validateAndFixDerivedTableIssuesWith (fix : String → Except String ScopeFixResult)
    (sqlQuery : String) : FixResult :=
  match fix sqlQuery with
  | .ok r =>
    { isValid := true, fixedQuery := r.fixedQuery,
      warnings :=
        (if derivedIssueFrom (toCodes sqlQuery) then
          ["Detected potential derived table scope issues, applying scope binding fixes"]
        else []) ++ r.warnings }
  | .error msg =>
    { isValid := false, fixedQuery := sqlQuery,
      warnings := ["Error fixing derived table scope issues: " ++ msg] }

def validateAndFixDerivedTableIssues (sqlQuery : String) : FixResult :=
  validateAndFixDerivedTableIssuesWith (fun q => .ok (fixDerivedTableScopeIssues q)) sqlQuery

/-- The fixed query produced by AIService.verifySQLQuery: validateAndCleanQuery,
the emptiness check, validateAndFixSQLQuery on the cleaned text, then
validateAndFixDerivedTableIssues on its fixedQuery; `none` stands for the
invalid early return (empty cleaned query) or the catch branch. -/
def verifySQLQueryFixed (sqlQuery : String) : Option String :=
  match validateAndCleanQuery sqlQuery with
  | .error _ => none
  | .ok cleaned =>
    if cleaned = "" || ofCodes (trimStr (toCodes cleaned)) = "" then none
    else
      some (validateAndFixDerivedTableIssues
        (validateAndFixSQLQuery cleaned).fixedQuery).fixedQuery
/-! ### C10: the TOP 1 reintroduction through the verification pipeline -/

theorem ciEq_refl (c : Nat) : ciEq c c = true := by simp [ciEq]
theorem ciDrop_self_append (pat t : List Nat) : ciDrop pat (pat ++ t) = some t := by
  induction pat with
  | nil => rfl
  | cons p ps ih => simp [ciDrop, ciEq_refl, ih]
theorem ciTake_self_append (pat t : List Nat) : ciTake pat (pat ++ t) = some (pat, t) := by
  simp [ciTake, ciDrop_self_append, List.take_left]
theorem csTake_self_append (pat t : List Nat) : csTake pat (pat ++ t) = some (pat, t) := by
  simp [csTake, csDrop_append, List.take_left]
theorem digit_not_space (c : Nat) (h : isDigitCode c = true) : isSpaceCode c = false := by
  simp only [isDigitCode, decide_eq_true_eq] at h
  simp only [isSpaceCode]
  simp only [decide_eq_false_iff_not]
  omega
theorem takeWhile_all_append (p : Nat → Bool) :
    ∀ (u t : List Nat), (∀ c ∈ u, p c = true) →
      (u ++ t).takeWhile p = u ++ t.takeWhile p := by
  intro u
  induction u with
  | nil => intro t _; rfl
  | cons c cs ih =>
    intro t h
    have hc : p c = true := h c (List.mem_cons_self c cs)
    simp [List.takeWhile, hc, ih t fun y hy => h y (List.mem_cons_of_mem c hy)]
theorem dropWhile_all_append (p : Nat → Bool) :
    ∀ (u t : List Nat), (∀ c ∈ u, p c = true) →
      (u ++ t).dropWhile p = t.dropWhile p := by
  intro u
  induction u with
  | nil => intro t _; rfl
  | cons c cs ih =>
    intro t h
    have hc : p c = true := h c (List.mem_cons_self c cs)
    simp [List.dropWhile, hc, ih t fun y hy => h y (List.mem_cons_of_mem c hy)]
theorem digits1_run (d : Nat) (ds t : List Nat) (hd : isDigitCode d = true)
    (hds : ∀ c ∈ ds, isDigitCode c = true)
    (ht1 : t.takeWhile isDigitCode = []) (ht2 : t.dropWhile isDigitCode = t) :
    digits1 ((d :: ds) ++ t) = some (d :: ds, t) := by
  have hall : ∀ c ∈ d :: ds, isDigitCode c = true := by
    intro c hc
    rcases List.mem_cons.mp hc with h | h
    · exact h ▸ hd
    · exact hds c h
  have h1 := takeWhile_all_append isDigitCode (d :: ds) t hall
  have h2 := dropWhile_all_append isDigitCode (d :: ds) t hall
  unfold digits1 many1
  rw [List.span_eq_take_drop]
  simp only [List.cons_append] at h1 h2 ⊢
  rw [h1, h2, ht1, ht2]
  simp
theorem isSpaceCode_32 : isSpaceCode 32 = true := rfl

theorem spaces0_one (c : Nat) (t : List Nat) (h : isSpaceCode c = false) :
    spaces0 (32 :: c :: t) = ([32], c :: t) := by
  simp [spaces0, List.span_eq_take_drop, List.takeWhile_cons, List.dropWhile_cons, h,
    isSpaceCode_32]

theorem spaces1_one (c : Nat) (t : List Nat) (h : isSpaceCode c = false) :
    spaces1 (32 :: c :: t) = some ([32], c :: t) := by
  simp [spaces1, many1, List.span_eq_take_drop, List.takeWhile_cons, List.dropWhile_cons, h,
    isSpaceCode_32]

theorem topCommentHead_lit (d : Nat) (t : List Nat) (hd : isSpaceCode d = false) :
    topCommentHead (toCodes "/* SELECT TOP " ++ (d :: t)) =
      some (toCodes "/* SELECT TOP ", d :: t) := by
  have e1 : toCodes "/* SELECT TOP " ++ (d :: t) =
      toCodes "/*" ++ (toCodes " SELECT TOP " ++ (d :: t)) := rfl
  have hOp : csTake (toCodes "/*") (toCodes "/* SELECT TOP " ++ (d :: t)) =
      some (toCodes "/*", toCodes " SELECT TOP " ++ (d :: t)) := by
    rw [e1, csTake_self_append]
  have e2 : toCodes " SELECT TOP " ++ (d :: t) =
      32 :: 83 :: (toCodes "ELECT TOP " ++ (d :: t)) := rfl
  have hW1 : spaces0 (toCodes " SELECT TOP " ++ (d :: t)) =
      ([32], toCodes "SELECT TOP " ++ (d :: t)) := by
    rw [e2]; exact spaces0_one 83 _ (by decide)
  have e3 : toCodes "SELECT TOP " ++ (d :: t) =
      toCodes "SELECT" ++ (toCodes " TOP " ++ (d :: t)) := rfl
  have hSel : ciTake (toCodes "SELECT") (toCodes "SELECT TOP " ++ (d :: t)) =
      some (toCodes "SELECT", toCodes " TOP " ++ (d :: t)) := by
    rw [e3, ciTake_self_append]
  have e4 : toCodes " TOP " ++ (d :: t) = 32 :: 84 :: (toCodes "OP " ++ (d :: t)) := rfl
  have hS1 : spaces1 (toCodes " TOP " ++ (d :: t)) =
      some ([32], toCodes "TOP " ++ (d :: t)) := by
    rw [e4]; exact spaces1_one 84 _ (by decide)
  have e5 : toCodes "TOP " ++ (d :: t) = toCodes "TOP" ++ (32 :: d :: t) := rfl
  have hTop : ciTake (toCodes "TOP") (toCodes "TOP " ++ (d :: t)) =
      some (toCodes "TOP", 32 :: d :: t) := by
    rw [e5, ciTake_self_append]
  have hS2 : spaces1 (32 :: d :: t) = some ([32], d :: t) := spaces1_one d t hd
  simp only [topCommentHead, hOp, hW1, hSel, hS1, hTop, hS2, Option.bind_eq_bind,
    Option.some_bind]
  have hlit : toCodes "/*" ++ ([32] ++ (toCodes "SELECT" ++ ([32] ++ (toCodes "TOP" ++ [32])))) =
      toCodes "/* SELECT TOP " := by decide
  simp only [List.append_assoc, hlit]

theorem topCommentM_comment (prev : Option Nat) (d : Nat) (ds rest : List Nat)
    (hd : isDigitCode d = true) (hds : ∀ c ∈ ds, isDigitCode c = true) :
    topCommentM prev
        (toCodes "/* SELECT TOP " ++ ((d :: ds) ++ (toCodes " converted */" ++ rest))) =
      some (toCodes "/* SELECT TOP " ++ (d :: ds) ++ toCodes " converted */",
        toCodes "TOP 1", rest) := by
  have hsp : isSpaceCode d = false := digit_not_space d hd
  have hA : topCommentHead
      (toCodes "/* SELECT TOP " ++ ((d :: ds) ++ (toCodes " converted */" ++ rest))) =
      some (toCodes "/* SELECT TOP ", (d :: ds) ++ (toCodes " converted */" ++ rest)) := by
    have := topCommentHead_lit d (ds ++ (toCodes " converted */" ++ rest)) hsp
    simpa using this
  have hB : digits1 ((d :: ds) ++ (toCodes " converted */" ++ rest)) =
      some (d :: ds, toCodes " converted */" ++ rest) :=
    digits1_run d ds _ hd hds rfl rfl
  have e6 : toCodes " converted */" ++ rest =
      32 :: 99 :: (toCodes "onverted */" ++ rest) := rfl
  have hC : spaces1 (toCodes " converted */" ++ rest) =
      some ([32], toCodes "converted */" ++ rest) := by
    rw [e6]; exact spaces1_one 99 _ (by decide)
  have e7 : toCodes "converted */" ++ rest =
      toCodes "converted" ++ (toCodes " */" ++ rest) := rfl
  have hD : ciTake (toCodes "converted") (toCodes "converted */" ++ rest) =
      some (toCodes "converted", toCodes " */" ++ rest) := by
    rw [e7, ciTake_self_append]
  have e8 : toCodes " */" ++ rest = 32 :: 42 :: (toCodes "/" ++ rest) := rfl
  have hE : spaces0 (toCodes " */" ++ rest) = ([32], toCodes "*/" ++ rest) := by
    rw [e8]; exact spaces0_one 42 _ (by decide)
  have e9 : toCodes "*/" ++ rest = toCodes "*/" ++ rest := rfl
  have hF : csTake (toCodes "*/") (toCodes "*/" ++ rest) = some (toCodes "*/", rest) :=
    csTake_self_append (toCodes "*/") rest
  simp only [topCommentM, hA, hB, hC, hD, hE, hF, Option.bind_eq_bind, Option.some_bind]
  have hlit : ([32] : List Nat) ++ (toCodes "converted" ++ ([32] ++ toCodes "*/")) =
      toCodes " converted */" := by decide
  simp only [List.append_assoc, hlit]

set_option maxRecDepth 40000 in
/-- C10 (amended): composing the two TOP/OFFSET passes reintroduces a TOP
clause.  The first conjunct is the general Fix-1 rewrite: the comment
matcher of fixSQLServerSyntaxIssues matches any
`/* SELECT TOP <digits> converted */` comment (the shape
fixTopWithTiesAndOffset emits) and replaces it with the literal `TOP 1`.
The remaining conjuncts run the scenario: on the plain TOP/OFFSET query,
validateAndCleanQuery wraps the TOP clause into the conversion comment, and
the verifySQLQuery pipeline (validateAndCleanQuery followed by
validateAndFixSQLQuery and validateAndFixDerivedTableIssues) produces a
query that contains `TOP 1` together with the retained OFFSET/FETCH clause.
Retention is not universal: see the UNION counterexample, where
fixOrderByBeforeUnion deletes the pagination clause. -/
theorem C10_top_one_reintroduction :
    (∀ (prev : Option Nat) (d : Nat) (ds rest : List Nat),
        isDigitCode d = true → (∀ c ∈ ds, isDigitCode c = true) →
        topCommentM prev
            (toCodes "/* SELECT TOP " ++ ((d :: ds) ++ (toCodes " converted */" ++ rest))) =
          some (toCodes "/* SELECT TOP " ++ (d :: ds) ++ toCodes " converted */",
            toCodes "TOP 1", rest)) ∧
    validateAndCleanQuery topOffsetQuery =
      .ok "SELECT /* SELECT TOP 10 converted */ * FROM T ORDER BY X OFFSET 5 ROWS FETCH NEXT 10 ROWS ONLY;" ∧
    verifySQLQueryFixed topOffsetQuery =
      some "SELECT TOP 1 * FROM T ORDER BY X OFFSET 5 ROWS FETCH NEXT 10 ROWS ONLY;" ∧
    includesCS (toCodes "TOP 1")
      (toCodes "SELECT TOP 1 * FROM T ORDER BY X OFFSET 5 ROWS FETCH NEXT 10 ROWS ONLY;") = true ∧
    includesCS (toCodes "OFFSET 5 ROWS FETCH NEXT 10 ROWS ONLY")
      (toCodes "SELECT TOP 1 * FROM T ORDER BY X OFFSET 5 ROWS FETCH NEXT 10 ROWS ONLY;") = true := by
  refine ⟨fun prev d ds rest hd hds => topCommentM_comment prev d ds rest hd hds,
    ?_, by decide, by decide, by decide⟩
  rfl

/-- Witness for C10: the general rewrite applied at the concrete comment
`/* SELECT TOP 1 converted */` (digit code 49). -/
theorem C10_top_one_reintroduction_witness :
    isDigitCode 49 = true ∧
    topCommentM none
        (toCodes "/* SELECT TOP " ++ ((49 :: []) ++ (toCodes " converted */" ++ []))) =
      some (toCodes "/* SELECT TOP " ++ (49 :: []) ++ toCodes " converted */",
        toCodes "TOP 1", []) :=
  ⟨by decide, C10_top_one_reintroduction.1 none 49 [] [] (by decide) (by decide)⟩
/-! ### DynamicSqlExecutor (dynamicSqlExecutor.ts)

executeSql retries a query against an abstract database (`exec`, indexed by
the attempt number) while classifying each error message; isGroupByError and
isSyntaxError are the two message classifiers, cleanSqlQuery and
fixGroupByAggregationError the two repairs. -/

/-- A character the dot of a non-dotall regex can match (no line breaks). -/
def noNl (c : Nat) : Bool := c != 10 && c != 13

/-- `pat` at the current position followed by `k`, with a `.*` gap: the gap
cannot cross a line break. -/
def gapThen (p : List Nat) (k : List Nat → Bool) : List Nat → Bool
  | [] => (match ciDrop p [] with | some r => k r | none => false)
  | c :: cs =>
    (match ciDrop p (c :: cs) with | some r => k r | none => false) ||
    (noNl c && gapThen p k cs)

/-- `pat` anywhere at or after the current position (the unanchored scan
before the first literal), followed by `k`. -/
def searchThen (p : List Nat) (k : List Nat → Bool) : List Nat → Bool
  | [] => (match ciDrop p [] with | some r => k r | none => false)
  | c :: cs =>
    (match ciDrop p (c :: cs) with | some r => k r | none => false) ||
    searchThen p k cs

/-- isGroupByError:
`/column.*invalid in the select list because it is not contained in.*GROUP BY/i`
or `/must appear in the GROUP BY clause/i`. -/
def isGroupByError (msg : List Nat) : Bool :=
  searchThen (toCodes "column")
    (gapThen (toCodes "invalid in the select list because it is not contained in")
      (gapThen (toCodes "GROUP BY") (fun _ => true))) msg ||
  includesCI (toCodes "must appear in the GROUP BY clause") msg

/-- isSyntaxError: `/syntax error/i` or `/incorrect syntax/i`. -/
def isSyntaxError (msg : List Nat) : Bool :=
  includesCI (toCodes "syntax error") msg || includesCI (toCodes "incorrect syntax") msg

/-- The identifier-quoting rewrite `(?<!\[)(\w+\.\w+)(?!\])` (flag g only)
of the executor's cleanSqlQuery, replaced by `[$1]`.  When the trailing
lookahead sees `]`, the greedy second `\w+` gives one character back, which
always satisfies the lookahead (the freed character is a word character). -/
def wordDotWordM : Matcher (List Nat) := fun prevC s =>
  if prevC == some 91 then none
  else do
    let (w1, r1) ← word1 s
    let (d, r2) ← csTake (toCodes ".") r1
    let (w2, r3) ← word1 r2
    if r3.head? == some 93 then
      if 2 ≤ w2.length then
        let w2s := w2.dropLast
        some (w1 ++ d ++ w2s, 91 :: (w1 ++ d ++ w2s) ++ [93], w2.getLastD 0 :: r3)
      else none
    else some (w1 ++ d ++ w2, 91 :: (w1 ++ d ++ w2) ++ [93], r3)

/-- The executor's cleanSqlQuery: strip backticks, then bracket unquoted
`word.word` identifiers. -/
def cleanSqlQuery (query : String) : String :=
  ofCodes (replAll wordDotWordM ((toCodes query).filter (· != 96)))

/-! #### fixGroupByAggregationError -/

/-- The lookahead `\s*\w+\s*\(` (a derived table opener after FROM). -/
def derivedOpenAhead (s : List Nat) : Bool :=
  match word1 (s.dropWhile isSpaceCode) with
  | some (_, r) => (r.dropWhile isSpaceCode).head? == some 40
  | none => false

/-- One admissible FROM for the final-SELECT pattern: at the end of the
query, or followed by whitespace that is not a derived-table opener. -/
def fromOkAt (s : List Nat) : Bool :=
  match ciDrop (toCodes "FROM") s with
  | none => false
  | some r =>
    r.isEmpty ||
    (match spaces1 r with
      | some _ => !derivedOpenAhead r
      | none => false)

/-- The lazy capture `([\s\S]*?)` before the first admissible FROM. -/
def fromTailCapture : Nat → List Nat → Option (List Nat)
  | 0, _ => none
  | f + 1, s =>
    if fromOkAt s then some []
    else
      match s with
      | [] => none
      | c :: cs => (fromTailCapture f cs).map (c :: ·)

/-- `SELECT([\s\S]*?)FROM(?:\s+(?!\s*\w+\s*\()[\s\S]*?)?$` at the current
position: the capture when it matches. -/
def selectCaptureAt (s : List Nat) : Option (List Nat) :=
  match ciDrop (toCodes "SELECT") s with
  | none => none
  | some r => fromTailCapture (r.length + 1) r

/-- The greedy alternative `[\s\S]*\)`: the latest `)` whose tail matches. -/
def lastCloseCapture : List Nat → Option (List Nat)
  | [] => none
  | c :: cs =>
    match lastCloseCapture cs with
    | some cap => some cap
    | none => if c = 41 then selectCaptureAt (cs.dropWhile isSpaceCode) else none

/-- finalSelectMatch
`/(?:^|[\s\S]*\))\s*SELECT([\s\S]*?)FROM(?:\s+(?!\s*\w+\s*\()[\s\S]*?)?$/i`:
the capture of the match, which always starts at position 0 and runs to the
end of the query when it exists. -/
def finalSelectCapture (q : List Nat) : Option (List Nat) :=
  match selectCaptureAt (q.dropWhile isSpaceCode) with
  | some cap => some cap
  | none => lastCloseCapture q

/-- One parsed SELECT column. -/
structure SelCol where
  expression : List Nat
  aliasName : List Nat
deriving DecidableEq, Repr

/-- parseSelectColumns: split on top-level commas with a (possibly negative)
parenthesis depth, trimming and dropping empty pieces. -/
def parseSelectColumnsGo : List Nat → Int → List Nat → List (List Nat) → List (List Nat)
  | [], _, cur, acc => if (trimStr cur).isEmpty then acc else acc ++ [trimStr cur]
  | c :: cs, depth, cur, acc =>
    if c = 40 then parseSelectColumnsGo cs (depth + 1) (cur ++ [c]) acc
    else if c = 41 then parseSelectColumnsGo cs (depth - 1) (cur ++ [c]) acc
    else if c = 44 ∧ depth = 0 then
      parseSelectColumnsGo cs depth []
        (if (trimStr cur).isEmpty then acc else acc ++ [trimStr cur])
    else parseSelectColumnsGo cs depth (cur ++ [c]) acc

/-- `/^(.+?)\s+AS\s+(.+)$/i`: the lazy first group grows until a
whitespace-AS-whitespace bridge leads to a nonempty line-break-free tail. -/
def asSplitGo : Nat → List Nat → List Nat → Option (List Nat × List Nat)
  | 0, _, _ => none
  | f + 1, g1, s =>
    match
      (if g1.isEmpty then none
        else
          match (do
            let (_, r1) ← spaces1 s
            let a ← ciDrop (toCodes "AS") r1
            let (_, r2) ← spaces1 a
            some r2) with
          | some r2 => if !r2.isEmpty && r2.all noNl then some (g1, r2) else none
          | none => none) with
    | some res => some res
    | none =>
      match s with
      | [] => none
      | c :: cs => if noNl c then asSplitGo f (g1 ++ [c]) cs else none

def asSplit (t : List Nat) : Option (List Nat × List Nat) := asSplitGo (t.length + 1) [] t

/-- parseColumn: AS alias, or the last dot segment, brackets stripped. -/
def parseColumn (columnText : List Nat) : SelCol :=
  match asSplit columnText with
  | some (exprPart, aliasPart) =>
    { expression := trimStr exprPart, aliasName := stripBrackets (trimStr aliasPart) }
  | none =>
    let al :=
      if includesCS (toCodes ".") columnText then
        stripBrackets ((splitOnDots columnText).getLastD [])
      else stripBrackets columnText
    { expression := trimStr columnText, aliasName := trimStr al }

/-- isAggregateColumn: `/\b(AVG|SUM|MAX|MIN|COUNT|STDEV|VAR)\s*\(/i`. -/
def isAggregateColumn : Option Nat → List Nat → Bool
  | _, [] => false
  | prev, c :: cs =>
    (!wordy prev &&
      (["AVG", "SUM", "MAX", "MIN", "COUNT", "STDEV", "VAR"].any fun k =>
        match ciDrop (toCodes k) (c :: cs) with
        | some r => (r.dropWhile isSpaceCode).head? == some 40
        | none => false)) ||
    isAggregateColumn (some c) cs

/-- `\s+A\s+` as a consuming piece (rest after). -/
def kw1Take (a s : List Nat) : Option (List Nat) := do
  let (_, r1) ← spaces1 s
  let r2 ← ciDrop a r1
  let (_, r3) ← spaces1 r2
  some r3

/-- `\s+A\s+B\s+` as a consuming piece. -/
def kw2Take (a b s : List Nat) : Option (List Nat) := do
  let (_, r1) ← spaces1 s
  let r2 ← ciDrop a r1
  let (_, r3) ← spaces1 r2
  let r4 ← ciDrop b r3
  let (_, r5) ← spaces1 r4
  some r5

/-- A lazy `([\s\S]*?)` before a continuation: the minimal split. -/
def lazySplit (k : List Nat → Option β) : Nat → List Nat → Option (List Nat × β)
  | 0, _ => none
  | f + 1, s =>
    match k s with
    | some b => some ([], b)
    | none =>
      match s with
      | [] => none
      | c :: cs => (lazySplit k f cs).map (fun pb => (c :: pb.1, pb.2))

/-- `(?:\s+ORDER\s+BY\s+([\s\S]*?))?$`. -/
def selParse5 (s : List Nat) : Option (Option (List Nat)) :=
  if s.isEmpty then some none
  else (kw2Take (toCodes "ORDER") (toCodes "BY") s).map some

/-- `(?:\s+GROUP\s+BY\s+([\s\S]*?))?` before the ORDER BY tail. -/
def selParse4 (s : List Nat) : Option (Option (List Nat) × Option (List Nat)) :=
  (match kw2Take (toCodes "GROUP") (toCodes "BY") s with
    | some r =>
      match lazySplit selParse5 (r.length + 1) r with
      | some (g4, g5) => some (some g4, g5)
      | none => none
    | none => none) <|>
  (selParse5 s).map (fun g5 => (none, g5))

/-- `(?:\s+WHERE\s+([\s\S]*?))?` before the GROUP BY / ORDER BY tail. -/
def selParse3 (s : List Nat) :
    Option (Option (List Nat) × Option (List Nat) × Option (List Nat)) :=
  (match kw1Take (toCodes "WHERE") s with
    | some r =>
      match lazySplit selParse4 (r.length + 1) r with
      | some (g3, g4, g5) => some (some g3, g4, g5)
      | none => none
    | none => none) <|>
  (selParse4 s).map (fun g45 => (none, g45.1, g45.2))

/-- The greedy `\s+` giving characters back to a failed continuation. -/
def spacesBacktrack (k : List Nat → Option β) : Nat → List Nat → List Nat → Option β
  | 0, _, _ => none
  | f + 1, sp, rest =>
    match k rest with
    | some b => some b
    | none =>
      if sp.length ≤ 1 then none
      else
        match sp.getLast? with
        | some a => spacesBacktrack k f sp.dropLast (a :: rest)
        | none => none

/-- selectMatch of restructureQueryWithSeparateAggregation:
`/^SELECT\s+([\s\S]*?)\s+FROM\s+([\s\S]*?)(?:\s+WHERE\s+([\s\S]*?))?(?:\s+GROUP\s+BY\s+([\s\S]*?))?(?:\s+ORDER\s+BY\s+([\s\S]*?))?$/i`.
Only the leading `\s+` needs the give-back (the later levels always admit
the end-anchored fallback). -/
def selectMatchParse (finalSel : List Nat) :
    Option (List Nat × List Nat × Option (List Nat) × Option (List Nat) × Option (List Nat)) := do
  let r0 ← ciDrop (toCodes "SELECT") finalSel
  let (sp, r1) ← spaces1 r0
  spacesBacktrack
    (fun s =>
      lazySplit
        (fun u => do
          let r ← kw1Take (toCodes "FROM") u
          lazySplit selParse3 (r.length + 1) r)
        (s.length + 1) s)
    (sp.length + 1) sp r1

/-- `array.join(', ')`. -/
def joinCommaSpace : List (List Nat) → List Nat
  | [] => []
  | [x] => x
  | x :: xs => x ++ 44 :: 32 :: joinCommaSpace xs

/-- restructureQueryWithSeparateAggregation: rebuild the final SELECT with a
GROUP BY over the non-aggregate expressions (an existing GROUP BY clause is
parsed but dropped; empty WHERE/ORDER captures are falsy and skipped). -/
def restructureQueryWithSeparateAggregation (originalQuery beforeFinalSelect finalSel : List Nat)
    (nonAggCols : List SelCol) : List Nat :=
  match selectMatchParse finalSel with
  | none => originalQuery
  | some (g1, g2, g3, _g4, g5) =>
    let groupByColumns := joinCommaSpace (nonAggCols.map (·.expression))
    let base := toCodes "SELECT\n  " ++ trimStr g1 ++ toCodes "\nFROM " ++ trimStr g2
    let withWhere := base ++
      (match g3 with
        | some w => if w.isEmpty then [] else toCodes "\nWHERE " ++ trimStr w
        | none => [])
    let withGb := withWhere ++ toCodes "\nGROUP BY " ++ groupByColumns
    let withOrder := withGb ++
      (match g5 with
        | some o => if o.isEmpty then [] else toCodes "\nORDER BY " ++ trimStr o
        | none => [])
    beforeFinalSelect ++ withOrder

/-- fixGroupByAggregationError: locate the final SELECT (the match always
spans the whole query; the split point is the first case-sensitive `SELECT`
occurrence), parse its columns, and when both aggregate and non-aggregate
columns are present rebuild it with a GROUP BY. -/
def fixGroupByAggregationError (query : String) : String :=
  let q := toCodes query
  match finalSelectCapture q with
  | none => query
  | some cap =>
    let selectClause := trimStr cap
    let selIdx :=
      match indexOfCS (toCodes "SELECT") q with
      | some i => i
      | none => 0
    let columns := (parseSelectColumnsGo selectClause 0 [] []).map parseColumn
    let aggCols := columns.filter (fun c => isAggregateColumn none c.expression)
    let nonAggCols := columns.filter (fun c => !isAggregateColumn none c.expression)
    if !aggCols.isEmpty && !nonAggCols.isEmpty then
      ofCodes (restructureQueryWithSeparateAggregation q (q.take selIdx) (q.drop selIdx)
        nonAggCols)
    else query

/-! #### The retry loop -/

/-- JS `parseInt(value, 10)`: leading whitespace, an optional sign, then the
longest digit prefix; `none` is NaN. -/
def parseIntJS (s : List Nat) : Option Int :=
  let s1 := s.dropWhile isSpaceCode
  let signAndRest : Int × List Nat :=
    match s1 with
    | 45 :: r => (-1, r)
    | 43 :: r => (1, r)
    | _ => (1, s1)
  match signAndRest.2.takeWhile isDigitCode with
  | [] => none
  | ds => some (signAndRest.1 * ds.foldl (fun acc d => acc * 10 + ((d : Int) - 48)) 0)

/-- config.ts parseInteger: falsy values and NaN fall back to the default. -/
def parseInteger (value : Option String) (defaultValue : Int) : Int :=
  match value with
  | none => defaultValue
  | some v =>
    if v = "" then defaultValue
    else
      match parseIntJS (toCodes v) with
      | some n => n
      | none => defaultValue

/-- `appConfig.sql.maxRetries = parseInteger(process.env.SQL_MAX_RETRIES, 3)`. -/
def sqlMaxRetries (envValue : Option String) : Int := parseInteger envValue 3

/-- The outcome of executeSql: a successful result value or a failure
carrying the last error, each with the number of attempts consumed. -/
inductive SqlExecResult (α : Type) where
  | success (value : α) (attempts : Nat)
  | failure (lastError : Option (List Nat)) (attempts : Nat)
deriving DecidableEq, Repr

def attemptsOf : SqlExecResult α → Nat
  | .success _ a => a
  | .failure _ a => a

/-- The `while (attempts < opts.maxRetries)` loop.  `exec` is the database,
indexed by the attempt number; the first argument is the number of attempts
still available (`maxRetries - attempts`), so the fuel is exact, not an
approximation.  A GROUP BY-class error reroutes through
fixGroupByAggregationError, a syntax-class error through cleanSqlQuery, and
any other error breaks out of the loop at once. -/
def executeSqlGo (exec : Nat → String → Except (List Nat) α) :
    Nat → Nat → Option (List Nat) → String → SqlExecResult α
  | 0, attempts, lastErr, _ => .failure lastErr attempts
  | f + 1, attempts, lastErr, q =>
    match exec (attempts + 1) q with
    | .ok v => .success v (attempts + 1)
    | .error e =>
      if isGroupByError e then
        executeSqlGo exec f (attempts + 1) (some e) (fixGroupByAggregationError q)
      else if isSyntaxError e then
        executeSqlGo exec f (attempts + 1) (some e) (cleanSqlQuery q)
      else .failure (some e) (attempts + 1)

def executeSql (exec : Nat → String → Except (List Nat) α) (maxRetries : Nat)
    (sqlQuery : String) : SqlExecResult α :=
  executeSqlGo exec maxRetries 0 none sqlQuery
theorem executeSqlGo_attempts_le (exec : Nat → String → Except (List Nat) α) :
    ∀ (f a : Nat) (le : Option (List Nat)) (q : String),
      attemptsOf (executeSqlGo exec f a le q) ≤ a + f := by
  intro f
  induction f with
  | zero => intro a le q; simp [executeSqlGo, attemptsOf]
  | succ n ih =>
    intro a le q
    rw [executeSqlGo]
    cases exec (a + 1) q with
    | ok v => simp only [attemptsOf]; omega
    | error e =>
      by_cases h1 : isGroupByError e = true
      · simp only [h1, if_true]
        have := ih (a + 1) (some e) (fixGroupByAggregationError q)
        omega
      · simp only [Bool.not_eq_true] at h1
        simp only [h1, Bool.false_eq_true, if_false]
        by_cases h2 : isSyntaxError e = true
        · simp only [h2, if_true]
          have := ih (a + 1) (some e) (cleanSqlQuery q)
          omega
        · simp only [Bool.not_eq_true] at h2
          simp only [h2, Bool.false_eq_true, if_false, attemptsOf]
          omega

/-- C8: the execute-with-retry loop.  (1) The loop never consumes more than
the configured maximum number of attempts.  (2)–(4) After a failed attempt
the error message is classified: a GROUP BY-class message reroutes the next
attempt through fixGroupByAggregationError, a syntax-class message through
the backtick/identifier-quoting cleanSqlQuery, and any other message
terminates the loop immediately with the attempts consumed so far, leaving
the remaining attempts unused.  (5) The configured maximum defaults to 3
when the SQL_MAX_RETRIES environment value is absent. -/
theorem C8_retry_loop_classification :
    (∀ (α : Type) (exec : Nat → String → Except (List Nat) α) (maxRetries : Nat)
        (q : String), attemptsOf (executeSql exec maxRetries q) ≤ maxRetries) ∧
    (∀ (α : Type) (exec : Nat → String → Except (List Nat) α) (f a : Nat)
        (le : Option (List Nat)) (q : String) (e : List Nat),
        exec (a + 1) q = .error e → isGroupByError e = true →
        executeSqlGo exec (f + 1) a le q =
          executeSqlGo exec f (a + 1) (some e) (fixGroupByAggregationError q)) ∧
    (∀ (α : Type) (exec : Nat → String → Except (List Nat) α) (f a : Nat)
        (le : Option (List Nat)) (q : String) (e : List Nat),
        exec (a + 1) q = .error e → isGroupByError e = false → isSyntaxError e = true →
        executeSqlGo exec (f + 1) a le q =
          executeSqlGo exec f (a + 1) (some e) (cleanSqlQuery q)) ∧
    (∀ (α : Type) (exec : Nat → String → Except (List Nat) α) (f a : Nat)
        (le : Option (List Nat)) (q : String) (e : List Nat),
        exec (a + 1) q = .error e → isGroupByError e = false → isSyntaxError e = false →
        executeSqlGo exec (f + 1) a le q = .failure (some e) (a + 1)) ∧
    sqlMaxRetries none = 3 := by
  refine ⟨?_, ?_, ?_, ?_, rfl⟩
  · intro α exec maxRetries q
    simpa using executeSqlGo_attempts_le exec maxRetries 0 none q
  · intro α exec f a le q e hx hg
    rw [executeSqlGo, hx]
    simp [hg]
  · intro α exec f a le q e hx hg hs
    rw [executeSqlGo, hx]
    simp [hg, hs]
  · intro α exec f a le q e hx hg hs
    rw [executeSqlGo, hx]
    simp [hg, hs]

/-- Witness for C8 at concrete oracles: a GROUP BY-class error message, a
syntax-class one, and an unclassifiable one, each driving the loop as the
theorem states, plus the attempts bound at a concrete run. -/
theorem C8_retry_loop_classification_witness :
    attemptsOf (executeSql
      (fun _ _ => (Except.error (toCodes "weird failure") : Except (List Nat) Nat)) 3 "q") ≤ 3 ∧
    executeSqlGo (fun _ _ => (Except.error
        (toCodes "Column 'T.x' is invalid in the select list because it is not contained in the GROUP BY clause") :
        Except (List Nat) Nat)) 3 0 none "SELECT a, SUM(b) FROM T" =
      executeSqlGo (fun _ _ => (Except.error
        (toCodes "Column 'T.x' is invalid in the select list because it is not contained in the GROUP BY clause") :
        Except (List Nat) Nat)) 2 1
        (some (toCodes "Column 'T.x' is invalid in the select list because it is not contained in the GROUP BY clause"))
        (fixGroupByAggregationError "SELECT a, SUM(b) FROM T") ∧
    executeSqlGo (fun _ _ => (Except.error (toCodes "incorrect syntax near x") :
        Except (List Nat) Nat)) 3 0 none "SELECT `a` FROM T" =
      executeSqlGo (fun _ _ => (Except.error (toCodes "incorrect syntax near x") :
        Except (List Nat) Nat)) 2 1 (some (toCodes "incorrect syntax near x"))
        (cleanSqlQuery "SELECT `a` FROM T") ∧
    executeSqlGo (fun _ _ => (Except.error (toCodes "weird failure") :
        Except (List Nat) Nat)) 3 0 none "SELECT a FROM T" =
      .failure (some (toCodes "weird failure")) 1 :=
  ⟨C8_retry_loop_classification.1 Nat _ 3 "q",
    C8_retry_loop_classification.2.1 Nat _ 2 0 none _ _ rfl (by decide),
    C8_retry_loop_classification.2.2.1 Nat _ 2 0 none _ _ rfl (by decide) (by decide),
    C8_retry_loop_classification.2.2.2.1 Nat _ 2 0 none _ _ rfl (by decide) (by decide)⟩
/-! ### C9: the validating wrappers catch internal exceptions -/

/-- C9: when the wrapped fixing logic throws (the abstract fixer returns an
error), neither validating wrapper propagates it: each returns
`isValid = false`, the original input as `fixedQuery`, and a single warning
describing the error (prefixed as in the source's catch blocks).  The
SQL-syntax wrapper's hypotheses exclude its empty-input early return, which
happens before the try block. -/
theorem C9_wrappers_catch_exceptions :
    (∀ (fix : String → Except String ScopeFixResult) (q msg : String),
        fix q = .error msg →
        validateAndFixDerivedTableIssuesWith fix q =
          { isValid := false, fixedQuery := q,
            warnings := ["Error fixing derived table scope issues: " ++ msg] }) ∧
    (∀ (fix : String → Except String String) (q msg : String),
        ¬(q = "") → ¬(ofCodes (trimStr (toCodes q)) = "") →
        fix q = .error msg →
        validateAndFixSQLQueryWith fix q =
          { isValid := false, fixedQuery := q,
            warnings := ["Error fixing SQL syntax: " ++ msg] }) := by
  constructor
  · intro fix q msg h
    simp [validateAndFixDerivedTableIssuesWith, h]
  · intro fix q msg h1 h2 h
    simp [validateAndFixSQLQueryWith, h1, h2, h]

/-- Witness for C9 at a concrete throwing fixer and query. -/
theorem C9_wrappers_catch_exceptions_witness :
    validateAndFixDerivedTableIssuesWith (fun _ => .error "regex blew up") "SELECT 1" =
      { isValid := false, fixedQuery := "SELECT 1",
        warnings := ["Error fixing derived table scope issues: regex blew up"] } ∧
    validateAndFixSQLQueryWith (fun _ => .error "regex blew up") "SELECT 1" =
      { isValid := false, fixedQuery := "SELECT 1",
        warnings := ["Error fixing SQL syntax: regex blew up"] } :=
  ⟨C9_wrappers_catch_exceptions.1 (fun _ => .error "regex blew up") "SELECT 1" "regex blew up"
      rfl,
    C9_wrappers_catch_exceptions.2 (fun _ => .error "regex blew up") "SELECT 1" "regex blew up"
      (by decide) (by decide) rfl⟩

/-- The TOP/OFFSET statement placed before a UNION branch. -/
def topOffsetUnionQuery : String :=
  "SELECT TOP 10 x FROM T ORDER BY X OFFSET 5 ROWS FETCH NEXT 10 ROWS ONLY UNION ALL SELECT y FROM U"

/-- What the pipeline produces on it: fixOrderByBeforeUnion removes the
top-level ORDER BY of the non-final UNION branch together with its
OFFSET/FETCH tail, and Fix 1 then turns the conversion comment into
`TOP 1`. -/
def topOffsetUnionFixed : String :=
  "SELECT TOP 1 x FROM T\n-- ORDER BY clause removed (not allowed before UNION)\nUNION ALL SELECT y FROM U;"

set_option maxRecDepth 40000 in
/-- C10, counterexample: the OFFSET/FETCH clause is NOT retained for every
query in which TOP and OFFSET...FETCH co-occur at the top level.  When the
statement precedes a UNION, fixOrderByBeforeUnion (run between the two
TOP/OFFSET passes inside validateAndCleanQuery) deletes everything from the
top-level ORDER BY to the end of the branch, so the pipeline's output
contains `TOP 1` but no OFFSET clause at all. -/
theorem C10_union_offset_dropped_counterexample :
    verifySQLQueryFixed topOffsetUnionQuery = some topOffsetUnionFixed ∧
    includesCS (toCodes "TOP 1") (toCodes topOffsetUnionFixed) = true ∧
    includesCS (toCodes "OFFSET") (toCodes topOffsetUnionFixed) = false := by
  refine ⟨?_, by decide, by decide⟩
  decide

end AiChatbot
